import Mathlib

/-!
Verification development for the openag-device-software core:
the LED DAC5578 event pipeline (src/device/peripherals/modules/led_dac5578/events.py)
and the ADT7470 controller manager (src/device/peripherals/modules/controller_adt7470/manager.py).

The Python code is shallowly embedded: pure fragments become Lean functions,
stateful fragments thread explicit state records, driver and queue interactions
are modelled by explicit oracles, and the long-running actuation sequences are
interpreted into finite event traces with a fuel bound on their outer
while-True loops.
-/

namespace OpenAg

/-- Modelled from the spec: the Mode enum of device.utilities.modes
(INIT, SETUP, MANUAL, AUTO, ERROR, SHUTDOWN), whose module is not part of the
embedded sources; the constants are distinct. -/
inductive Mode
  | INIT
  | SETUP
  | MANUAL
  | AUTO
  | ERROR
  | SHUTDOWN
deriving DecidableEq, Repr

/-- Event type strings from events.py. -/
def TURN_ON_EVENT : String := "Turn On"

def TURN_OFF_EVENT : String := "Turn Off"

def SET_CHANNEL_EVENT : String := "Set Channel"

def FADE_EVENT : String := "Fade"

def SUNRISE_EVENT : String := "Sunrise"

def ORBIT_EVENT : String := "Orbit"

/-- A Python float, that is an IEEE binary64 value: nan, the signed
infinities, negative zero, or a finite value — every finite binary64 is an
exact rational and is carried as such. -/
inductive PyFloat
  | nan
  | inf
  | negInf
  | negZero
  | finite (q : ℚ)
deriving DecidableEq, Repr

/-- IEEE less-than of a Python float against a finite rational bound:
nan compares false against everything, negative zero equals zero. -/
def pyLt : PyFloat → ℚ → Bool
  | PyFloat.nan, _ => false
  | PyFloat.inf, _ => false
  | PyFloat.negInf, _ => true
  | PyFloat.negZero, x => decide ((0 : ℚ) < x)
  | PyFloat.finite q, x => decide (q < x)

/-- IEEE greater-than of a Python float against a finite rational bound. -/
def pyGt : PyFloat → ℚ → Bool
  | PyFloat.nan, _ => false
  | PyFloat.inf, _ => true
  | PyFloat.negInf, _ => false
  | PyFloat.negZero, x => decide (x < 0)
  | PyFloat.finite q, x => decide (x < q)

/-- A normalized command placed on the event queue by the pre-processors
(the dicts built in turn_on, set_channel, sunrise, ... of events.py). -/
inductive Request
  | turnOn
  | turnOff
  | setChannel (channel : String) (percent : PyFloat)
  | fade
  | sunrise
  | orbit
deriving DecidableEq, Repr

/-- Configuration visible to the LED event handler: the declared channel names
(manager.channel_names, equal to the keys of driver.build_channel_outputs)
and the driver panels iterated by the orbit demo. -/
structure LedConfig where
  channel_names : List String
  panels : List String
deriving Repr

/-- The mutable manager state the LED event code touches: self.mode,
the FIFO event queue (self.queue, modelled as a list with put = append),
and manager.channel_setpoints (a dict, modelled as an association list). -/
structure LedState where
  mode : Mode
  queue : List Request
  channel_setpoints : List (String × PyFloat)
deriving Repr

/-- Raw incoming event request dict: a "type" string and an optional "value"
payload string (request.get of a missing "value" key raises KeyError, modelled
by none). -/
structure RawRequest where
  type : String
  value : Option String
deriving Repr

/-- Decimal digits to a natural number. -/
def digitsToNat (cs : List Char) : Nat :=
  cs.foldl (fun acc c => acc * 10 + (c.toNat - 48)) 0

/-- Split a character list at every occurrence of the separator, keeping
empty segments, as Python str.split with a one-character separator does. -/
def splitChar (sep : Char) : List Char → List (List Char)
  | [] => [[]]
  | c :: rest =>
      let r := splitChar sep rest
      if c = sep then [] :: r
      else
        match r with
        | [] => [[c]]
        | g :: gs => (c :: g) :: gs

/-- Models Python str.split on a comma. -/
def pySplitComma (s : String) : List String :=
  (splitChar ',' s.toList).map (fun g => String.mk g)

/-- The C-locale whitespace that Python float() strips around the literal
(CPython also transliterates non-ASCII whitespace first; that step is not
modelled). -/
def pyIsSpace (c : Char) : Bool :=
  c = ' ' || c = '\t' || c = '\n' || c = '\x0b' || c = '\x0c' || c = '\r'

/-- Strip leading and trailing whitespace from a character list. -/
def trimChars (cs : List Char) : List Char :=
  ((cs.dropWhile pyIsSpace).reverse.dropWhile pyIsSpace).reverse

/-- Optional leading sign: true means negative. -/
def parseSign : List Char → Bool × List Char
  | '-' :: rest => (true, rest)
  | '+' :: rest => (false, rest)
  | cs => (false, cs)

/-- Case-insensitive match against a fixed lowercase word. -/
def lowerEq (cs : List Char) (w : List Char) : Bool :=
  cs.map Char.toLower == w

/-- Is the character list a PEP-515 digit group: only decimal digits and
underscores, with every underscore strictly between two digits (so none at
either end and none adjacent). -/
def validGroup (cs : List Char) : Bool :=
  cs.all (fun c => c.isDigit || c = '_') &&
  (match cs.head? with
   | some '_' => false
   | _ => true) &&
  (match cs.getLast? with
   | some '_' => false
   | _ => true) &&
  (cs.zip cs.tail).all (fun pair => !(pair.1 = '_' && pair.2 = '_'))

/-- A PEP-515 digit group with the underscores removed, none when malformed.
The empty group is accepted here — the grammar decides where an empty group
is legal. -/
def digitsGroup? (cs : List Char) : Option (List Char) :=
  if validGroup cs then some (cs.filter (fun c => c ≠ '_')) else none

/-- Split at the first exponent marker e or E, if any. -/
def splitExp : List Char → List Char × Option (List Char)
  | [] => ([], none)
  | c :: rest =>
      if c = 'e' || c = 'E' then ([], some rest)
      else
        match splitExp rest with
        | (m, ex) => (c :: m, ex)

/-- Split at the first decimal point, if any. -/
def splitDot : List Char → List Char × Option (List Char)
  | [] => ([], none)
  | c :: rest =>
      if c = '.' then ([], some rest)
      else
        match splitDot rest with
        | (m, fr) => (c :: m, fr)

/-- Number of binary digits of n (0 for n = 0); the fuel n is ample. -/
def natBitsAux : Nat → Nat → Nat
  | 0, _ => 0
  | f + 1, n => if n = 0 then 0 else natBitsAux f (n / 2) + 1

/-- Bit length of a natural number. -/
def natBits (n : Nat) : Nat := natBitsAux n n

/-- Does 2^e ≤ n / d hold, by integer cross-multiplication. -/
def pow2Le (e : Int) (n d : Nat) : Bool :=
  if 0 ≤ e then decide (d * 2 ^ e.toNat ≤ n) else decide (d ≤ n * 2 ^ (-e).toNat)

/-- The binary exponent e with 2^e ≤ n/d < 2^(e+1), for n, d > 0: the bit
lengths locate it up to one, fixed by direct comparison. -/
def findExp (n d : Nat) : Int :=
  let e0 : Int := (natBits n : Int) - (natBits d : Int)
  if pow2Le (e0 + 1) n d then e0 + 1
  else if pow2Le e0 n d then e0
  else if pow2Le (e0 - 1) n d then e0 - 1
  else e0 - 2

/-- Round N / D to the nearest natural number, ties to even (D > 0). -/
def roundHalfEvenNat (N D : Nat) : Nat :=
  let k := N / D
  let r := N % D
  if D < 2 * r then k + 1
  else if 2 * r < D then k
  else if k % 2 = 0 then k else k + 1

/-- Correctly round the positive rational n/d to an IEEE binary64 as CPython
float construction does: round the significand at the quantum 2^(e-52) (at
2^(-1074) below the normal range) with ties to even; a result at or past
2^1024 overflows to infinity, and a tiny value underflows to zero. A finite
result is the exact rational value of the double. -/
def roundPosToDouble (n d : Nat) : PyFloat :=
  let e := findExp n d
  let scale : Int := (if e < -1022 then -1022 else e) - 52
  let N := if 0 ≤ scale then n else n * 2 ^ (-scale).toNat
  let D := if 0 ≤ scale then d * 2 ^ scale.toNat else d
  let m := roundHalfEvenNat N D
  if 2 ^ 1024 ≤ m * 2 ^ scale.toNat then PyFloat.inf
  else if m = 0 then PyFloat.finite 0
  else
    PyFloat.finite
      (if 0 ≤ scale then mkRat ((m * 2 ^ scale.toNat : Nat) : Int) 1
       else mkRat (m : Int) (2 ^ (-scale).toNat))

/-- Negation of a Python float, used to apply the parsed sign. -/
def pyNeg : PyFloat → PyFloat
  | PyFloat.nan => PyFloat.nan
  | PyFloat.inf => PyFloat.negInf
  | PyFloat.negInf => PyFloat.inf
  | PyFloat.negZero => PyFloat.finite 0
  | PyFloat.finite q =>
      if q = 0 then PyFloat.negZero else PyFloat.finite (mkRat (-q.num) q.den)

/-- Models CPython float() on a string: optional surrounding whitespace and
sign, then inf / infinity / nan (case-insensitive) or a decimal literal —
digits with PEP-515 underscores, optional fraction, optional e/E exponent —
whose exact decimal value is correctly rounded to the nearest IEEE binary64.
Anything else raises ValueError, modelled as none. Non-ASCII numerals and
whitespace, which CPython first transliterates to ASCII, are not modelled. -/
def pyFloat? (s : String) : Option PyFloat :=
  let sb := parseSign (trimChars s.toList)
  let neg := sb.1
  let body := sb.2
  if lowerEq body ['i', 'n', 'f'] ||
      lowerEq body ['i', 'n', 'f', 'i', 'n', 'i', 't', 'y'] then
    some (if neg then PyFloat.negInf else PyFloat.inf)
  else if lowerEq body ['n', 'a', 'n'] then some PyFloat.nan
  else
    let me := splitExp body
    let idf := splitDot me.1
    let fracPart : Option (List Char) :=
      match idf.2 with
      | none => some []
      | some f => digitsGroup? f
    let expVal : Option Int :=
      match me.2 with
      | none => some 0
      | some ecs =>
          let es := parseSign ecs
          match digitsGroup? es.2 with
          | none => none
          | some [] => none
          | some ds =>
              some (if es.1 then -(digitsToNat ds : Int) else (digitsToNat ds : Int))
    match digitsGroup? idf.1, fracPart, expVal with
    | some ids, some fds, some ex =>
        if ids.isEmpty && fds.isEmpty then none
        else
          let mant := digitsToNat (ids ++ fds)
          let decExp : Int := ex - fds.length
          if mant = 0 then some (if neg then PyFloat.negZero else PyFloat.finite 0)
          else
            let r :=
              if 0 ≤ decExp then roundPosToDouble (mant * 10 ^ decExp.toNat) 1
              else roundPosToDouble mant (10 ^ (-decExp).toNat)
            some (if neg then pyNeg r else r)
    | _, _, _ => none

/-- Round a rational to the nearest integer, ties to even, by integer
division of numerator by denominator. -/
def roundHalfEvenQ (q : ℚ) : Int :=
  let k := Int.fdiv q.num (q.den : Int)
  let r := q.num - k * (q.den : Int)
  if (q.den : Int) < 2 * r then k + 1
  else if 2 * r < (q.den : Int) then k
  else if k % 2 = 0 then k else k + 1

/-- Models the Python format spec .0F on a float: the exact value is rounded
to the nearest integer with ties to even, a negative value that rounds to
zero keeps its sign, and nan and the infinities print in uppercase. -/
def formatF0 : PyFloat → String
  | PyFloat.nan => "NAN"
  | PyFloat.inf => "INF"
  | PyFloat.negInf => "-INF"
  | PyFloat.negZero => "-0"
  | PyFloat.finite q =>
      let m := roundHalfEvenQ q
      if m = 0 ∧ q < 0 then "-0" else toString m

/-- events.py turn_on: pre-processes a Turn On request; rejects unless the
mode is MANUAL, otherwise enqueues and accepts. -/
def turn_on (st : LedState) : (String × Nat) × LedState :=
  if st.mode ≠ Mode.MANUAL then (("Must be in manual mode", 400), st)
  else (("Turning on", 200), { st with queue := st.queue ++ [Request.turnOn] })

/-- events.py turn_off: pre-processes a Turn Off request. -/
def turn_off (st : LedState) : (String × Nat) × LedState :=
  if st.mode ≠ Mode.MANUAL then (("Must be in manual mode", 400), st)
  else (("Turning off", 200), { st with queue := st.queue ++ [Request.turnOff] })

/-- events.py fade: pre-processes a Fade request. -/
def fade (st : LedState) : (String × Nat) × LedState :=
  if st.mode ≠ Mode.MANUAL then (("Must be in manual mode", 400), st)
  else (("Fading", 200), { st with queue := st.queue ++ [Request.fade] })

/-- events.py set_channel: pre-processes a Set Channel request.
Mirrors the source order: mode gate; parse request["value"].split(",") with
channel = response[0] and percent = float(response[1]) where a missing value
key is a KeyError (400), a non-numeric percent is a ValueError (400), and a
payload without a second comma-separated field is an IndexError caught by the
bare except (500); then the channel-name check (400); then the percent range
check (400) under IEEE comparisons — so nan, being neither below 0 nor above
100, passes it; finally enqueue and accept. -/
def set_channel (cfg : LedConfig) (st : LedState) (value : Option String) :
    (String × Nat) × LedState :=
  if st.mode ≠ Mode.MANUAL then (("Must be in manual mode", 400), st)
  else
    match value with
    | none =>
        (("Unable to set channel, invalid request parameter: 'value'", 400), st)
    | some v =>
        match pySplitComma v with
        | [] => (("Unable to set channel, unhandled exception", 500), st)
        | [_] => (("Unable to set channel, unhandled exception", 500), st)
        | c :: p :: _ =>
            match pyFloat? p with
            | none =>
                (("Unable to set channel, could not convert string to float", 400), st)
            | some percent =>
                if c ∉ cfg.channel_names then
                  (("Invalid channel name: " ++ c, 400), st)
                else if pyLt percent 0 || pyGt percent 100 then
                  (("Unable to set channel, invalid intensity: " ++ formatF0 percent ++ "%", 400), st)
                else
                  (("Setting " ++ c ++ " to " ++ formatF0 percent ++ "%", 200),
                   { st with queue := st.queue ++ [Request.setChannel c percent] })

/-- The fixed required channel names checked by sunrise and orbit. -/
def required_channel_names : List String := ["R", "FR", "WW", "CW", "G", "B"]

/-- First required channel name missing from the configured channels, in the
order the source loop scans them. -/
def firstMissing (channel_names : List String) : Option String :=
  required_channel_names.find? (fun c => !channel_names.contains c)

/-- events.py sunrise: pre-processes a Sunrise request; mode gate, then the
required-channel scan (500 at the first missing name), then enqueue. -/
def sunrise (cfg : LedConfig) (st : LedState) : (String × Nat) × LedState :=
  if st.mode ≠ Mode.MANUAL then (("Must be in manual mode", 400), st)
  else
    match firstMissing cfg.channel_names with
    | some c => (("Config must have channel named: " ++ c, 500), st)
    | none =>
        (("Starting sunrise demo", 200), { st with queue := st.queue ++ [Request.sunrise] })

/-- events.py orbit: pre-processes an Orbit request. -/
def orbit (cfg : LedConfig) (st : LedState) : (String × Nat) × LedState :=
  if st.mode ≠ Mode.MANUAL then (("Must be in manual mode", 400), st)
  else
    match firstMissing cfg.channel_names with
    | some c => (("Config must have channel named: " ++ c, 500), st)
    | none =>
        (("Starting orbit demo", 200), { st with queue := st.queue ++ [Request.orbit] })

/-- events.py create_peripheral_specific_event: routes a raw request to its
pre-processor by its type string. -/
def create_peripheral_specific_event (cfg : LedConfig) (st : LedState) (req : RawRequest) :
    (String × Nat) × LedState :=
  if req.type = TURN_ON_EVENT then turn_on st
  else if req.type = TURN_OFF_EVENT then turn_off st
  else if req.type = SET_CHANNEL_EVENT then set_channel cfg st req.value
  else if req.type = FADE_EVENT then fade st
  else if req.type = SUNRISE_EVENT then sunrise cfg st
  else if req.type = ORBIT_EVENT then orbit cfg st
  else (("Unknown event request type", 400), st)

/-- Driver behaviour visible to the dispatched LED handlers: turn_on and
turn_off either return a channel-setpoints mapping or raise DriverError
(none); set_output either succeeds (true) or raises (false). -/
structure LedDriver where
  turn_on : Option (List (String × PyFloat))
  turn_off : Option (List (String × PyFloat))
  set_output : String → PyFloat → Bool

/-- Association-list update, modelling Python dict assignment
channel_setpoints[channel] = percent. -/
def setAssoc (l : List (String × PyFloat)) (k : String) (v : PyFloat) :
    List (String × PyFloat) :=
  match l with
  | [] => [(k, v)]
  | (k', v') :: rest => if k' = k then (k, v) :: rest else (k', v') :: setAssoc rest k v

/-- events.py _turn_on: the dispatched handler. On driver success the whole
setpoint mapping is replaced by the driver result; on DriverError the mode is
set to ERROR and the setpoints are left untouched. (The mode gate in the
source only logs; update_reported_variables only mirrors state outward.) -/
def _turn_on (drv : LedDriver) (st : LedState) : LedState :=
  match drv.turn_on with
  | some m => { st with channel_setpoints := m }
  | none => { st with mode := Mode.ERROR }

/-- events.py _turn_off: the dispatched handler. -/
def _turn_off (drv : LedDriver) (st : LedState) : LedState :=
  match drv.turn_off with
  | some m => { st with channel_setpoints := m }
  | none => { st with mode := Mode.ERROR }

/-- events.py _set_channel: the dispatched handler for a queued
Set Channel request carrying channel and percent. The setpoint entry is
assigned only after driver.set_output returns; a DriverError sets mode ERROR
and leaves the setpoints unmodified. -/
def _set_channel (drv : LedDriver) (st : LedState) (channel : String)
    (percent : PyFloat) :
    LedState :=
  if drv.set_output channel percent then
    { st with channel_setpoints := setAssoc st.channel_setpoints channel percent }
  else { st with mode := Mode.ERROR }

/-!
Actuation sequences (_fade, _sunrise, _orbit of events.py).
Each is interpreted into a finite trace of observable events. The infinite
while-True loops are bounded by a fuel parameter on their outer iteration; the
driver and the queue are oracles: setOutputOk k tells whether the k-th
set_output call raises, queueNonempty k tells what the k-th queue.empty()
poll observes. The sequences read self.mode only to log and never assign it,
and never mutate the queue or the setpoints, so the manager state is not
threaded through them.
-/

/-- Observable actions of a running sequence. -/
inductive Ev
  | turnOffAll
  | turnOffFail
  | write (ch : String) (pct : Int)
  | writeFail (ch : String) (pct : Int)
  | sleepMs (ms : Nat)
  | chk
deriving DecidableEq, Repr

/-- Why a sequence returned: preempted at a queue checkpoint, aborted on a
driver failure, or crashed on the undefined name steps_delta_dast. -/
inductive Halt
  | preempted
  | aborted
  | nameError
deriving DecidableEq, Repr

/-- Oracles for one sequence run. -/
structure SeqEnv where
  turnOffOk : Bool
  setOutputOk : Nat → Bool
  queueNonempty : Nat → Bool

/-- Counters identifying the next driver call and the next queue poll. -/
structure SeqSt where
  callIdx : Nat
  checkIdx : Nat
deriving DecidableEq, Repr

/-- Result of running a sequence fragment: its trace, an early-return reason
(none means the fragment fell through), and the updated counters. -/
abbrev SeqRes : Type := List Ev × Option Halt × SeqSt

/-- One driver.set_output attempt: returns success, the trace event, and the
bumped call counter. -/
def doSetOutput (env : SeqEnv) (ch : String) (pct : Int) (s : SeqSt) :
    Bool × Ev × SeqSt :=
  if env.setOutputOk s.callIdx then
    (true, Ev.write ch pct, { s with callIdx := s.callIdx + 1 })
  else
    (false, Ev.writeFail ch pct, { s with callIdx := s.callIdx + 1 })

/-- One queue.empty() poll: true means the queue was observed non-empty. -/
def doCheck (env : SeqEnv) (s : SeqSt) : Bool × SeqSt :=
  (env.queueNonempty s.checkIdx, { s with checkIdx := s.checkIdx + 1 })

/-- Prepend already-emitted events to a fragment result. -/
def seqAppend (evs : List Ev) (r : SeqRes) : SeqRes := (evs ++ r.1, r.2.1, r.2.2)

/-- Sequential composition: if the first fragment returned early the rest of
the Python function body is skipped, otherwise continue from its state. -/
def andThen (r : SeqRes) (k : SeqSt → SeqRes) : SeqRes :=
  match r with
  | (evs, some h, s) => (evs, some h, s)
  | (evs, none, s) => seqAppend evs (k s)

/-- The 19-point fade-up step table of _fade. -/
def fade_steps_up : List Int :=
  [0, 1, 3, 5, 9, 13, 17, 22, 27, 33, 39, 46, 53, 60, 68, 76, 84, 93, 100]

/-- The 19-point fade-down step table of _fade. -/
def fade_steps_down : List Int :=
  [100, 93, 84, 76, 68, 60, 53, 46, 39, 33, 27, 22, 17, 13, 9, 5, 3, 1, 0]

/-- One step table of _fade for one channel: per step, set_output (a failure
is logged and returns, aborting), then the queue checkpoint (non-empty
returns, preempted). -/
def fadeRamp (env : SeqEnv) (ch : String) (steps : List Int) (s : SeqSt) : SeqRes :=
  match steps with
  | [] => ([], none, s)
  | p :: rest =>
      let w := doSetOutput env ch p s
      if w.1 then
        let c := doCheck env w.2.2
        if c.1 then ([w.2.1, Ev.chk], some Halt.preempted, c.2)
        else seqAppend [w.2.1, Ev.chk] (fadeRamp env ch rest c.2)
      else ([w.2.1], some Halt.aborted, w.2.2)

/-- The per-channel body of _fade: fade up, sleep 1 ms, fade down, sleep 1 ms
(the sleeps are not followed by a queue check). -/
def fadeChannel (env : SeqEnv) (ch : String) (s : SeqSt) : SeqRes :=
  andThen (fadeRamp env ch fade_steps_up s) (fun s1 =>
    andThen ([Ev.sleepMs 1], none, s1) (fun s2 =>
      andThen (fadeRamp env ch fade_steps_down s2) (fun s3 =>
        ([Ev.sleepMs 1], none, s3))))

/-- The for-loop of _fade over its channel names. -/
def fadeChannels (env : SeqEnv) (chs : List String) (s : SeqSt) : SeqRes :=
  match chs with
  | [] => ([], none, s)
  | ch :: rest => andThen (fadeChannel env ch s) (fadeChannels env rest)

/-- The while-True loop of _fade, bounded by fuel outer iterations. -/
def fadeLoop (env : SeqEnv) (chs : List String) (fuel : Nat) (s : SeqSt) : SeqRes :=
  match fuel with
  | 0 => ([], none, s)
  | f + 1 => andThen (fadeChannels env chs s) (fadeLoop env chs f)

/-- events.py _fade: turn all channels off (failure is logged and aborts the
sequence before any step), select the target channels (a given single channel
or all declared ones), then loop. -/
def _fade (env : SeqEnv) (channel_name : Option String) (declared : List String)
    (fuel : Nat) : SeqRes :=
  if env.turnOffOk then
    seqAppend [Ev.turnOffAll]
      (fadeLoop env
        (match channel_name with
         | some c => [c]
         | none => declared)
        fuel ⟨0, 0⟩)
  else ([Ev.turnOffFail], some Halt.aborted, ⟨0, 0⟩)

/-- Sunrise constants from _sunrise. -/
def steps_delta_slow : Int := 1

/-- Lower bound of the sunrise step ramps. -/
def steps_min : Int := 0

/-- Upper bound of the sunrise step ramps. -/
def steps_max : Int := 100

/-- The fixed channel-group table of _sunrise. -/
def sunrise_channel_lists : List (List String) := [["FR"], ["R"], ["WW"], ["CW"]]

/-- The step-delta selection of _sunrise: groups of length one use the slow
delta; any other length reaches the undefined name steps_delta_dast, a
NameError modelled by none. -/
def stepDelta? (group : List String) : Option Int :=
  if group.length = 1 then some steps_delta_slow else none

/-- Fuel bound for one inner sunrise while loop; with delta 1 the loop runs
steps_max - steps_min + 1 = 101 iterations, so 202 is ample. -/
def rampFuel : Nat := 202

/-- The rising inner while loop of _sunrise for one channel: while
step ≤ steps_max, set_output (a failure is logged and the loop continues),
increment step, queue checkpoint (non-empty returns, preempted), sleep 1 ms. -/
def sunriseRampUp (env : SeqEnv) (ch : String) (delta : Int) (fuel : Nat)
    (step : Int) (s : SeqSt) : SeqRes :=
  match fuel with
  | 0 => ([], none, s)
  | f + 1 =>
      if step ≤ steps_max then
        let w := doSetOutput env ch step s
        let c := doCheck env w.2.2
        if c.1 then ([w.2.1, Ev.chk], some Halt.preempted, c.2)
        else
          seqAppend [w.2.1, Ev.chk, Ev.sleepMs 1]
            (sunriseRampUp env ch delta f (step + delta) c.2)
      else ([], none, s)

/-- The falling inner while loop of _sunrise for one channel: while
step ≥ steps_min, set_output, decrement step, checkpoint, sleep 1 ms. -/
def sunriseRampDown (env : SeqEnv) (ch : String) (delta : Int) (fuel : Nat)
    (step : Int) (s : SeqSt) : SeqRes :=
  match fuel with
  | 0 => ([], none, s)
  | f + 1 =>
      if step ≥ steps_min then
        let w := doSetOutput env ch step s
        let c := doCheck env w.2.2
        if c.1 then ([w.2.1, Ev.chk], some Halt.preempted, c.2)
        else
          seqAppend [w.2.1, Ev.chk, Ev.sleepMs 1]
            (sunriseRampDown env ch delta f (step - delta) c.2)
      else ([], none, s)

/-- The ramp-boundary set_output of _sunrise (set step max / set step min):
a failure is logged and execution continues, and no queue check follows. -/
def boundaryWrite (env : SeqEnv) (ch : String) (pct : Int) (s : SeqSt) : SeqRes :=
  let w := doSetOutput env ch pct s
  ([w.2.1], none, w.2.2)

/-- The sunrise-half channel loop of _sunrise for one group. -/
def sunriseChannelsUp (env : SeqEnv) (delta : Int) (chs : List String) (s : SeqSt) :
    SeqRes :=
  match chs with
  | [] => ([], none, s)
  | ch :: rest =>
      andThen (sunriseRampUp env ch delta rampFuel steps_min s) (fun s1 =>
        andThen (boundaryWrite env ch steps_max s1) (fun s2 =>
          sunriseChannelsUp env delta rest s2))

/-- The sunset-half channel loop of _sunrise for one group. -/
def sunriseChannelsDown (env : SeqEnv) (delta : Int) (chs : List String) (s : SeqSt) :
    SeqRes :=
  match chs with
  | [] => ([], none, s)
  | ch :: rest =>
      andThen (sunriseRampDown env ch delta rampFuel steps_max s) (fun s1 =>
        andThen (boundaryWrite env ch steps_min s1) (fun s2 =>
          sunriseChannelsDown env delta rest s2))

/-- The sunrise-half group loop: pick the step delta (NameError for a group
whose length is not one), then run the group's channels. -/
def sunriseGroupsUp (env : SeqEnv) (groups : List (List String)) (s : SeqSt) : SeqRes :=
  match groups with
  | [] => ([], none, s)
  | g :: rest =>
      match stepDelta? g with
      | none => ([], some Halt.nameError, s)
      | some d => andThen (sunriseChannelsUp env d g s) (sunriseGroupsUp env rest)

/-- The sunset-half group loop. -/
def sunriseGroupsDown (env : SeqEnv) (groups : List (List String)) (s : SeqSt) : SeqRes :=
  match groups with
  | [] => ([], none, s)
  | g :: rest =>
      match stepDelta? g with
      | none => ([], some Halt.nameError, s)
      | some d => andThen (sunriseChannelsDown env d g s) (sunriseGroupsDown env rest)

/-- The noon / midnight pause of _sunrise: sleep 0.5 s then a queue
checkpoint. -/
def pauseCheck (env : SeqEnv) (s : SeqSt) : SeqRes :=
  let c := doCheck env s
  if c.1 then ([Ev.sleepMs 500, Ev.chk], some Halt.preempted, c.2)
  else ([Ev.sleepMs 500, Ev.chk], none, c.2)

/-- One iteration of the while-True loop of _sunrise: sunrise over the groups,
noon pause, sunset over the reversed groups, midnight pause. -/
def sunriseIteration (env : SeqEnv) (s : SeqSt) : SeqRes :=
  andThen (sunriseGroupsUp env sunrise_channel_lists s) (fun s1 =>
    andThen (pauseCheck env s1) (fun s2 =>
      andThen (sunriseGroupsDown env sunrise_channel_lists.reverse s2) (fun s3 =>
        pauseCheck env s3)))

/-- The while-True loop of _sunrise, bounded by fuel. -/
def sunriseLoop (env : SeqEnv) (fuel : Nat) (s : SeqSt) : SeqRes :=
  match fuel with
  | 0 => ([], none, s)
  | f + 1 => andThen (sunriseIteration env s) (sunriseLoop env f)

/-- events.py _sunrise: turn all channels off (failure aborts before any
step), then loop. -/
def _sunrise (env : SeqEnv) (fuel : Nat) : SeqRes :=
  if env.turnOffOk then seqAppend [Ev.turnOffAll] (sunriseLoop env fuel ⟨0, 0⟩)
  else ([Ev.turnOffFail], some Halt.aborted, ⟨0, 0⟩)

/-- The panel loop of _orbit: per panel, write the red channel at the
translated full setpoint (the whole get_channel_number / translate_setpoint /
write_output block is one driver attempt; any failure is logged and returns,
aborting), then a queue checkpoint, then sleep 0.5 s. -/
def orbitPanels (env : SeqEnv) (panels : List String) (s : SeqSt) : SeqRes :=
  match panels with
  | [] => ([], none, s)
  | _ :: rest =>
      let w := doSetOutput env "R" 100 s
      if w.1 then
        let c := doCheck env w.2.2
        if c.1 then ([w.2.1, Ev.chk], some Halt.preempted, c.2)
        else seqAppend [w.2.1, Ev.chk, Ev.sleepMs 500] (orbitPanels env rest c.2)
      else ([w.2.1], some Halt.aborted, w.2.2)

/-- The while-True loop of _orbit: a queue checkpoint at the top of each
iteration, then the panel loop. -/
def orbitLoop (env : SeqEnv) (panels : List String) (fuel : Nat) (s : SeqSt) : SeqRes :=
  match fuel with
  | 0 => ([], none, s)
  | f + 1 =>
      let c := doCheck env s
      if c.1 then ([Ev.chk], some Halt.preempted, c.2)
      else seqAppend [Ev.chk] (andThen (orbitPanels env panels c.2)
        (orbitLoop env panels f))

/-- events.py _orbit: turn all channels off (failure aborts before any step),
then loop over the panels. -/
def _orbit (env : SeqEnv) (panels : List String) (fuel : Nat) : SeqRes :=
  if env.turnOffOk then seqAppend [Ev.turnOffAll] (orbitLoop env panels fuel ⟨0, 0⟩)
  else ([Ev.turnOffFail], some Halt.aborted, ⟨0, 0⟩)

/-!
ADT7470 controller manager (manager.py): setup_peripheral and
update_peripheral. Driver calls are oracles returning none on DriverError;
state-store writes are accumulated as publish events.
-/

/-- A declared sensor descriptor from the configuration parameters. -/
structure SensorSpec where
  sensor_id : Int
  variable_name : String
deriving DecidableEq, Repr

/-- A declared actuator descriptor from the configuration parameters. -/
structure ActuatorSpec where
  fan_id : Int
  control_sensor_id : Option Int
  duty_cycle_name : String
  fan_speed_name : String
  tachometer_enabled : Bool
  minimum_temperature : ℚ
  minimum_duty_cycle : ℚ
  maximum_duty_cycle : ℚ
  drive_frequency_mode : String
deriving DecidableEq, Repr

/-- The ADT7470 driver interface as the manager consumes it; none models a
raised DriverError. -/
structure ADTDriver where
  read_temperature : Int → Option ℚ
  read_current_duty_cycle : Int → Option ℚ
  read_fan_speed : Int → Option ℚ
  enable_low_frequency_fan_drive : Option Unit
  enable_high_frequency_fan_drive : Option Unit
  enable_manual_fan_control : Int → Option Unit
  enable_automatic_fan_control : Int → Option Unit
  write_current_duty_cycle : Int → ℚ → Option Unit
  enable_monitoring : Option Unit
  write_thermal_zone_config : Int → Int → Option Unit
  write_thermal_zone_minimum_temperature : Int → ℚ → Option Unit
  write_minimum_duty_cycle : Int → ℚ → Option Unit
  write_maximum_duty_cycle : Int → ℚ → Option Unit

/-- Manager configuration: the declared sensors and actuators and the
simulate flag. -/
structure ADTConfig where
  sensors : List SensorSpec
  actuators : List ActuatorSpec
  simulate : Bool

/-- A single state-store write (peripheral-scoped or environment-scoped,
sensor or actuator). -/
inductive Pub
  | periphSensor (name : String) (value : Option ℚ)
  | envSensor (name : String) (value : Option ℚ)
  | periphAct (name : String) (value : Option ℚ)
  | envAct (name : String) (value : Option ℚ)
deriving DecidableEq, Repr

/-- The manager state the embedded methods touch: self.mode, self.health and
the stream of state-store writes issued so far. -/
structure ADTState where
  mode : Mode
  health : ℚ
  publishes : List Pub
deriving Repr

/-- manager.py set_sensor: publish a sensor value to the peripheral-scoped
and the shared-environment state. -/
def set_sensor (st : ADTState) (name : String) (v : Option ℚ) : ADTState :=
  { st with publishes := st.publishes ++ [Pub.periphSensor name v, Pub.envSensor name v] }

/-- manager.py set_actuator: publish an actuator output value to the
peripheral-scoped and the shared-environment state. -/
def set_actuator (st : ADTState) (name : String) (v : Option ℚ) : ADTState :=
  { st with publishes := st.publishes ++ [Pub.periphAct name v, Pub.envAct name v] }

/-- The sensor loop of update_peripheral: read each temperature and publish
it; a DriverError propagates (error carries the state at the raise point, so
earlier publishes of the pass are kept and nothing later is published). -/
def updateSensors (drv : ADTDriver) (sensors : List SensorSpec) (st : ADTState) :
    Except ADTState ADTState :=
  match sensors with
  | [] => Except.ok st
  | s :: rest =>
      match drv.read_temperature s.sensor_id with
      | none => Except.error st
      | some t => updateSensors drv rest (set_sensor st s.variable_name (some t))

/-- The actuator loop of update_peripheral: read duty cycle and fan speed,
publish both, and overwrite the pass health to 60 when a tachometer-enabled
fan shows positive duty cycle with zero measured speed. -/
def updateActuators (drv : ADTDriver) (acts : List ActuatorSpec) (st : ADTState)
    (health : ℚ) : Except ADTState (ADTState × ℚ) :=
  match acts with
  | [] => Except.ok (st, health)
  | a :: rest =>
      match drv.read_current_duty_cycle a.fan_id with
      | none => Except.error st
      | some duty =>
          match drv.read_fan_speed a.fan_id with
          | none => Except.error st
          | some speed =>
              let st1 := set_actuator st a.duty_cycle_name (some duty)
              let st2 := set_actuator st1 a.fan_speed_name (some speed)
              let h :=
                if a.tachometer_enabled && decide (0 < duty) && decide (speed = 0)
                then (60 : ℚ) else health
              updateActuators drv rest st2 h

/-- manager.py update_peripheral: simulate short-circuits; otherwise run the
sensor loop then the actuator loop (pass health initialized to 100 and
committed at the end); any DriverError sets mode ERROR and health 0, keeping
the publishes already made. -/
def update_peripheral (drv : ADTDriver) (cfg : ADTConfig) (st : ADTState) : ADTState :=
  if cfg.simulate then st
  else
    match updateSensors drv cfg.sensors st with
    | Except.error st1 => { st1 with mode := Mode.ERROR, health := 0 }
    | Except.ok st1 =>
        match updateActuators drv cfg.actuators st1 100 with
        | Except.error st2 => { st2 with mode := Mode.ERROR, health := 0 }
        | Except.ok (st2, h) => { st2 with health := h }

/-- The drive-mode step of setup_peripheral: with at least one actuator,
enable low- or high-frequency fan drive from the first actuator's
drive_frequency_mode. -/
def setupDriveMode (drv : ADTDriver) (acts : List ActuatorSpec) : Except Unit Unit :=
  match acts with
  | [] => Except.ok ()
  | a :: _ =>
      if a.drive_frequency_mode = "low" then
        match drv.enable_low_frequency_fan_drive with
        | none => Except.error ()
        | some _ => Except.ok ()
      else
        match drv.enable_high_frequency_fan_drive with
        | none => Except.error ()
        | some _ => Except.ok ()

/-- The tach-fan turn-on loop of setup_peripheral: for each tachometer-enabled
actuator, enable manual control and write duty cycle 100. -/
def setupTachOn (drv : ADTDriver) : List ActuatorSpec → Except Unit Unit
  | [] => Except.ok ()
  | a :: rest =>
      if a.tachometer_enabled then
        match drv.enable_manual_fan_control a.fan_id with
        | none => Except.error ()
        | some _ =>
            match drv.write_current_duty_cycle a.fan_id 100 with
            | none => Except.error ()
            | some _ => setupTachOn drv rest
      else setupTachOn drv rest

/-- The fan-verification loop of setup_peripheral (after the 5 s grace wait):
read each tachometer-enabled fan's speed; zero speed lowers self.health to
60. -/
def setupVerify (drv : ADTDriver) (health : ℚ) : List ActuatorSpec → Except Unit ℚ
  | [] => Except.ok health
  | a :: rest =>
      if a.tachometer_enabled then
        match drv.read_fan_speed a.fan_id with
        | none => Except.error ()
        | some sp => setupVerify drv (if sp = 0 then (60 : ℚ) else health) rest
      else setupVerify drv health rest

/-- The fan mode/limit configuration loop of setup_peripheral: manual fans get
manual control, automatic fans get thermal-zone configuration. -/
def setupConfig (drv : ADTDriver) : List ActuatorSpec → Except Unit Unit
  | [] => Except.ok ()
  | a :: rest =>
      match a.control_sensor_id with
      | none =>
          match drv.enable_manual_fan_control a.fan_id with
          | none => Except.error ()
          | some _ => setupConfig drv rest
      | some cs =>
          match drv.write_thermal_zone_config a.fan_id cs with
          | none => Except.error ()
          | some _ =>
              match drv.write_thermal_zone_minimum_temperature a.fan_id
                  a.minimum_temperature with
              | none => Except.error ()
              | some _ =>
                  match drv.write_minimum_duty_cycle a.fan_id a.minimum_duty_cycle with
                  | none => Except.error ()
                  | some _ =>
                      match drv.write_maximum_duty_cycle a.fan_id
                          a.maximum_duty_cycle with
                      | none => Except.error ()
                      | some _ =>
                          match drv.enable_automatic_fan_control a.fan_id with
                          | none => Except.error ()
                          | some _ => setupConfig drv rest

/-- The try body of setup_peripheral, returning the health it leaves behind
(the 5 s time.sleep has no state effect and is omitted). -/
def setupBody (drv : ADTDriver) (acts : List ActuatorSpec) (health : ℚ) :
    Except Unit ℚ :=
  match setupDriveMode drv acts with
  | Except.error e => Except.error e
  | Except.ok _ =>
      match setupTachOn drv acts with
      | Except.error e => Except.error e
      | Except.ok _ =>
          match drv.enable_monitoring with
          | none => Except.error ()
          | some _ =>
              match setupVerify drv health acts with
              | Except.error e => Except.error e
              | Except.ok h =>
                  match setupConfig drv acts with
                  | Except.error e => Except.error e
                  | Except.ok _ => Except.ok h

/-- manager.py setup_peripheral: simulate short-circuits; otherwise run the
body; any DriverError sets mode ERROR and health 0 regardless of how much of
the body already ran. -/
def setup_peripheral (drv : ADTDriver) (cfg : ADTConfig) (st : ADTState) : ADTState :=
  if cfg.simulate then st
  else
    match setupBody drv cfg.actuators st.health with
    | Except.error _ => { st with mode := Mode.ERROR, health := 0 }
    | Except.ok h => { st with health := h }

/-- The state-store writes the sensor loop makes for a list of sensors whose
reads succeed. -/
def sensorPubs (drv : ADTDriver) (l : List SensorSpec) : List Pub :=
  l.flatMap (fun s =>
    [Pub.periphSensor s.variable_name (drv.read_temperature s.sensor_id),
     Pub.envSensor s.variable_name (drv.read_temperature s.sensor_id)])

/-- The state-store writes the actuator loop makes for a list of actuators
whose reads succeed. -/
def actuatorPubs (drv : ADTDriver) (l : List ActuatorSpec) : List Pub :=
  l.flatMap (fun a =>
    [Pub.periphAct a.duty_cycle_name (drv.read_current_duty_cycle a.fan_id),
     Pub.envAct a.duty_cycle_name (drv.read_current_duty_cycle a.fan_id),
     Pub.periphAct a.fan_speed_name (drv.read_fan_speed a.fan_id),
     Pub.envAct a.fan_speed_name (drv.read_fan_speed a.fan_id)])

/-- The functional-verification failure condition of the monitor pass for one
actuator: tachometer enabled, positive duty cycle read, zero fan speed read. -/
def fanFailB (drv : ADTDriver) (a : ActuatorSpec) : Bool :=
  a.tachometer_enabled &&
    (match drv.read_current_duty_cycle a.fan_id with
     | some d => decide (0 < d)
     | none => false) &&
    (match drv.read_fan_speed a.fan_id with
     | some sp => decide (sp = 0)
     | none => false)

/-!
Predicates used to state the claims, and concrete instances used by
counterexamples and witnesses.
-/

/-- Is the event a successful output write. -/
def evIsWrite : Ev → Bool
  | Ev.write _ _ => true
  | _ => false

/-- Is the event a blocking hold (time.sleep). -/
def evIsHold : Ev → Bool
  | Ev.sleepMs _ => true
  | _ => false

/-- Is the event a driver failure. -/
def evIsFail : Ev → Bool
  | Ev.writeFail _ _ => true
  | Ev.turnOffFail => true
  | _ => false

/-- Every event satisfying p is immediately followed by a queue checkpoint. -/
def checkpointAfter (p : Ev → Bool) (t : List Ev) : Prop :=
  ∀ i e, t.get? i = some e → p e = true → t.get? (i + 1) = some Ev.chk

/-- The trace does not end in a successful output write. -/
def lastNotWrite (t : List Ev) : Prop :=
  ∀ e, t.getLast? = some e → evIsWrite e = false

/-- Invariant for the fade/orbit checkpoint-coverage proofs. -/
def goodW (t : List Ev) : Prop := checkpointAfter evIsWrite t ∧ lastNotWrite t

/-- A preempted fragment returned right at its queue checkpoint: the check is
the last event, nothing was done after it. -/
def preemptEnds (r : SeqRes) : Prop :=
  r.2.1 = some Halt.preempted → r.1.getLast? = some Ev.chk

/-- Driver failures abort on the spot: any failure event is the last event of
the trace and the fragment returned aborted. -/
def failsOnlyAtEnd (r : SeqRes) : Prop :=
  ∀ i e, r.1.get? i = some e → evIsFail e = true →
    i + 1 = r.1.length ∧ r.2.1 = some Halt.aborted

/-- Oracle: driver healthy, queue always observed empty. -/
def envEmptyQ : SeqEnv := ⟨true, fun _ => true, fun _ => false⟩

/-- Oracle: driver healthy, queue always observed non-empty. -/
def envBusyQ : SeqEnv := ⟨true, fun _ => true, fun _ => true⟩

/-- Oracle: the first set_output call raises, the rest succeed; queue empty. -/
def envFirstWriteFails : SeqEnv := ⟨true, fun k => decide (k ≠ 0), fun _ => false⟩

/-- Oracle: the first set_output call raises and the queue becomes non-empty
from the second poll on. -/
def envFailThenBusy : SeqEnv :=
  ⟨true, fun k => decide (k ≠ 0), fun k => decide (k ≠ 0)⟩

/-- Oracle: the initial turn_off raises. -/
def envTurnOffFails : SeqEnv := ⟨false, fun _ => true, fun _ => false⟩

/-- Trace of a fade over the single declared channel R, one outer loop pass,
healthy driver, empty queue. -/
def fadeDemoTrace : List Ev := (_fade envEmptyQ none ["R"] 1).1

/-- Trace of one sunrise pass with the first set_output raising. -/
def sunriseFailTrace : List Ev := (_sunrise envFirstWriteFails 1).1

/-- A configuration declaring all six required channels. -/
def demoCfg : LedConfig := ⟨["R", "FR", "WW", "CW", "G", "B"], ["panel_1"]⟩

/-- A configuration lacking the FR channel. -/
def cfgNoFR : LedConfig := ⟨["R", "WW", "CW", "G", "B"], ["panel_1"]⟩

/-- A manager in MANUAL mode with an empty queue and no setpoints. -/
def stManual : LedState := ⟨Mode.MANUAL, [], []⟩

/-- A manager in ERROR mode. -/
def stError : LedState := ⟨Mode.ERROR, [], []⟩

/-- An always-succeeding LED driver. -/
def drvOkLed : LedDriver := ⟨some [], some [], fun _ _ => true⟩

/-- An always-raising LED driver. -/
def drvBadLed : LedDriver := ⟨none, none, fun _ _ => false⟩

/-- The example sensor of the spec scenarios. -/
def demoSensor : SensorSpec := ⟨1, "temp_0"⟩

/-- A manual tachometer-enabled actuator. -/
def demoActuator : ActuatorSpec := ⟨1, none, "fan_duty", "fan_speed", true, 0, 0, 100, "low"⟩

/-- An ADT7470 driver whose reads all succeed but whose fan is stuck: duty
cycle 40, fan speed 0. -/
def drvStuckFan : ADTDriver :=
  ⟨fun _ => some 25, fun _ => some 40, fun _ => some 0,
   some (), some (), fun _ => some (), fun _ => some (), fun _ _ => some (),
   some (), fun _ _ => some (), fun _ _ => some (), fun _ _ => some (),
   fun _ _ => some ()⟩

/-- An ADT7470 driver whose reads all succeed with a spinning fan: duty cycle
40, fan speed 1200. -/
def drvSpinningFan : ADTDriver :=
  ⟨fun _ => some 25, fun _ => some 40, fun _ => some 1200,
   some (), some (), fun _ => some (), fun _ => some (), fun _ _ => some (),
   some (), fun _ _ => some (), fun _ _ => some (), fun _ _ => some (),
   fun _ _ => some ()⟩

/-- An ADT7470 driver whose enable_monitoring call raises DriverError. -/
def drvMonitorFails : ADTDriver :=
  ⟨fun _ => some 25, fun _ => some 40, fun _ => some 1200,
   some (), some (), fun _ => some (), fun _ => some (), fun _ _ => some (),
   none, fun _ _ => some (), fun _ _ => some (), fun _ _ => some (),
   fun _ _ => some ()⟩

/-- An ADT7470 driver whose temperature reads raise DriverError. -/
def drvTempFails : ADTDriver :=
  ⟨fun _ => none, fun _ => some 40, fun _ => some 1200,
   some (), some (), fun _ => some (), fun _ => some (), fun _ _ => some (),
   some (), fun _ _ => some (), fun _ _ => some (), fun _ _ => some (),
   fun _ _ => some ()⟩

/-- Configuration with the demo sensor and actuator, not simulated. -/
def demoADTCfg : ADTConfig := ⟨[demoSensor], [demoActuator], false⟩

/-- A healthy manager state in MANUAL mode. -/
def demoADTState : ADTState := ⟨Mode.MANUAL, 100, []⟩

/-!
Helper lemmas.
-/

theorem firstMissing_none_iff (ns : List String) :
    firstMissing ns = none ↔ ∀ c ∈ required_channel_names, c ∈ ns := by
  simp [firstMissing, List.find?_eq_none]

theorem firstMissing_some_spec (ns : List String) (c : String)
    (h : firstMissing ns = some c) : c ∈ required_channel_names ∧ c ∉ ns := by
  refine ⟨List.mem_of_find?_eq_some h, ?_⟩
  have hp := List.find?_some h
  simpa using hp

theorem lookup_setAssoc (l : List (String × PyFloat)) (k : String) (v : PyFloat) :
    (setAssoc l k v).lookup k = some v := by
  induction l with
  | nil => simp [setAssoc, List.lookup]
  | cons a rest ih =>
      obtain ⟨k', v'⟩ := a
      by_cases h : k' = k
      · simp [setAssoc, h, List.lookup]
      · have hb : (k == k') = false := beq_eq_false_iff_ne.mpr (Ne.symm h)
        simp [setAssoc, h, List.lookup, ih, hb]

theorem preemptEnds_pure (evs : List Ev) (s : SeqSt) :
    preemptEnds (evs, none, s) := by
  intro hp
  simp [preemptEnds] at hp

theorem preemptEnds_seqAppend (evs : List Ev) (r : SeqRes) (h : preemptEnds r) :
    preemptEnds (seqAppend evs r) := by
  intro hp
  have h2 := h hp
  have hne : r.1 ≠ [] := by
    intro he
    rw [he] at h2
    simp at h2
  show (evs ++ r.1).getLast? = some Ev.chk
  rw [List.getLast?_append_of_ne_nil _ hne]
  exact h2

theorem preemptEnds_andThen (r : SeqRes) (k : SeqSt → SeqRes)
    (hr : preemptEnds r) (hk : ∀ s, preemptEnds (k s)) :
    preemptEnds (andThen r k) := by
  obtain ⟨evs, ho, s⟩ := r
  cases ho with
  | none => exact preemptEnds_seqAppend evs (k s) (hk s)
  | some h => exact hr

/-- Outcome of a fragment is either fall-through or preemption. -/
def onlyPreempt (r : SeqRes) : Prop :=
  r.2.1 = none ∨ r.2.1 = some Halt.preempted

theorem onlyPreempt_seqAppend (evs : List Ev) (r : SeqRes) (h : onlyPreempt r) :
    onlyPreempt (seqAppend evs r) := h

theorem onlyPreempt_andThen (r : SeqRes) (k : SeqSt → SeqRes)
    (hr : onlyPreempt r) (hk : ∀ s, onlyPreempt (k s)) :
    onlyPreempt (andThen r k) := by
  obtain ⟨evs, ho, s⟩ := r
  cases ho with
  | none => exact hk s
  | some h => exact hr

theorem lastNotWrite_append (a b : List Ev) (ha : lastNotWrite a) (hb : lastNotWrite b) :
    lastNotWrite (a ++ b) := by
  cases b with
  | nil =>
      intro e hl
      rw [List.append_nil] at hl
      exact ha e hl
  | cons x xs =>
      intro e hl
      rw [List.getLast?_append_of_ne_nil _ (by simp)] at hl
      exact hb e hl

theorem checkpointAfter_append (p : Ev → Bool) (a b : List Ev)
    (ha : checkpointAfter p a) (hb : checkpointAfter p b)
    (hlast : ∀ e, a.getLast? = some e → p e = false) :
    checkpointAfter p (a ++ b) := by
  intro i e hget hpe
  by_cases hi : i < a.length
  · rw [List.get?_append hi] at hget
    by_cases hi1 : i + 1 < a.length
    · rw [List.get?_append hi1]
      exact ha i e hget hpe
    · have hlen : i + 1 = a.length := by omega
      have hlast' : a.getLast? = some e := by
        rw [List.getLast?_eq_get? a]
        have : a.length - 1 = i := by omega
        rw [this]
        exact hget
      exact absurd hpe (by simp [hlast e hlast'])
  · push_neg at hi
    rw [List.get?_append_right hi] at hget
    have hb' := hb _ e hget hpe
    rw [List.get?_append_right (by omega : a.length ≤ i + 1)]
    have : i + 1 - a.length = i - a.length + 1 := by omega
    rw [this]
    exact hb'

theorem goodW_append {a b : List Ev} (ha : goodW a) (hb : goodW b) : goodW (a ++ b) :=
  ⟨checkpointAfter_append evIsWrite a b ha.1 hb.1 ha.2,
   lastNotWrite_append a b ha.2 hb.2⟩

theorem goodW_andThen (r : SeqRes) (k : SeqSt → SeqRes)
    (hr : goodW r.1) (hk : ∀ s, goodW (k s).1) : goodW (andThen r k).1 := by
  obtain ⟨evs, ho, s⟩ := r
  cases ho with
  | none => exact goodW_append hr (hk s)
  | some h => exact hr

theorem goodW_nil : goodW ([] : List Ev) := by
  constructor
  · intro i e hget hpe
    simp at hget
  · intro e hl
    simp at hl

theorem goodW_single (e : Ev) (h : evIsWrite e = false) : goodW [e] := by
  constructor
  · intro i e' hget hpe
    match i with
    | 0 =>
        simp only [List.get?] at hget
        cases hget
        rw [h] at hpe
        cases hpe
    | n + 1 => simp [List.get?] at hget
  · intro e' hl
    simp only [List.getLast?_singleton, Option.some.injEq] at hl
    rw [← hl]
    exact h

theorem goodW_pair_chk (e : Ev) : goodW [e, Ev.chk] := by
  constructor
  · intro i e' hget hpe
    match i with
    | 0 => rfl
    | 1 =>
        simp only [List.get?] at hget
        cases hget
        cases hpe
    | n + 2 => simp [List.get?] at hget
  · intro e' hl
    simp only [List.getLast?] at hl
    simp at hl
    rw [← hl]
    rfl

theorem failsOnlyAtEnd_clean (evs : List Ev) (ho : Option Halt) (s : SeqSt)
    (hevs : ∀ e ∈ evs, evIsFail e = false) : failsOnlyAtEnd (evs, ho, s) := by
  intro i e hget hfe
  have hmem : e ∈ evs := List.get?_mem hget
  rw [hevs e hmem] at hfe
  cases hfe

theorem failsOnlyAtEnd_abortLast (e : Ev) (s : SeqSt) :
    failsOnlyAtEnd ([e], some Halt.aborted, s) := by
  intro i e' hget hfe
  match i with
  | 0 =>
      simp only [List.get?] at hget
      cases hget
      exact ⟨rfl, rfl⟩
  | n + 1 => simp [List.get?] at hget

theorem failsOnlyAtEnd_seqAppend (evs : List Ev) (r : SeqRes)
    (hevs : ∀ e ∈ evs, evIsFail e = false) (hr : failsOnlyAtEnd r) :
    failsOnlyAtEnd (seqAppend evs r) := by
  intro i e hget hfe
  by_cases hi : i < evs.length
  · rw [show (seqAppend evs r).1 = evs ++ r.1 from rfl, List.get?_append hi] at hget
    have hmem : e ∈ evs := List.get?_mem hget
    rw [hevs e hmem] at hfe
    cases hfe
  · push_neg at hi
    rw [show (seqAppend evs r).1 = evs ++ r.1 from rfl, List.get?_append_right hi] at hget
    have hb := hr _ e hget hfe
    refine ⟨?_, hb.2⟩
    have := hb.1
    simp only [show (seqAppend evs r).1 = evs ++ r.1 from rfl, List.length_append]
    omega

theorem failsOnlyAtEnd_andThen (r : SeqRes) (k : SeqSt → SeqRes)
    (hr : failsOnlyAtEnd r) (hk : ∀ s, failsOnlyAtEnd (k s)) :
    failsOnlyAtEnd (andThen r k) := by
  obtain ⟨evs, ho, s⟩ := r
  cases ho with
  | none =>
      refine failsOnlyAtEnd_seqAppend evs (k s) ?_ (hk s)
      intro e hmem
      by_contra hne
      obtain ⟨i, hi⟩ := List.get?_of_mem hmem
      have := hr i e hi (by revert hne; cases evIsFail e <;> simp)
      simp at this
  | some h => exact hr

theorem fadeRamp_cons_preempt (env : SeqEnv) (ch : String) (p : Int) (rest : List Int)
    (s : SeqSt) (hw : env.setOutputOk s.callIdx = true)
    (hq : env.queueNonempty s.checkIdx = true) :
    fadeRamp env ch (p :: rest) s =
      ([Ev.write ch p, Ev.chk], some Halt.preempted,
        ⟨s.callIdx + 1, s.checkIdx + 1⟩) := by
  simp [fadeRamp, doSetOutput, doCheck, hw, hq]

theorem fadeRamp_cons_go (env : SeqEnv) (ch : String) (p : Int) (rest : List Int)
    (s : SeqSt) (hw : env.setOutputOk s.callIdx = true)
    (hq : env.queueNonempty s.checkIdx = false) :
    fadeRamp env ch (p :: rest) s =
      seqAppend [Ev.write ch p, Ev.chk]
        (fadeRamp env ch rest ⟨s.callIdx + 1, s.checkIdx + 1⟩) := by
  simp [fadeRamp, doSetOutput, doCheck, hw, hq]

theorem fadeRamp_cons_abort (env : SeqEnv) (ch : String) (p : Int) (rest : List Int)
    (s : SeqSt) (hw : env.setOutputOk s.callIdx = false) :
    fadeRamp env ch (p :: rest) s =
      ([Ev.writeFail ch p], some Halt.aborted, ⟨s.callIdx + 1, s.checkIdx⟩) := by
  simp [fadeRamp, doSetOutput, hw]

theorem fadeRamp_props (env : SeqEnv) (ch : String) (steps : List Int) (s : SeqSt) :
    preemptEnds (fadeRamp env ch steps s) ∧ goodW (fadeRamp env ch steps s).1 ∧
      failsOnlyAtEnd (fadeRamp env ch steps s) := by
  induction steps generalizing s with
  | nil =>
      exact ⟨preemptEnds_pure _ _, goodW_nil, failsOnlyAtEnd_clean _ _ _ (by simp)⟩
  | cons p rest ih =>
      cases hw : env.setOutputOk s.callIdx
      · rw [fadeRamp_cons_abort env ch p rest s hw]
        refine ⟨?_, goodW_single _ rfl, failsOnlyAtEnd_abortLast _ _⟩
        intro hp
        simp at hp
      · cases hq : env.queueNonempty s.checkIdx
        · rw [fadeRamp_cons_go env ch p rest s hw hq]
          obtain ⟨h1, h2, h3⟩ := ih ⟨s.callIdx + 1, s.checkIdx + 1⟩
          exact ⟨preemptEnds_seqAppend _ _ h1,
            goodW_append (goodW_pair_chk _) h2,
            failsOnlyAtEnd_seqAppend _ _ (by simp [evIsFail]) h3⟩
        · rw [fadeRamp_cons_preempt env ch p rest s hw hq]
          refine ⟨fun _ => rfl, goodW_pair_chk _, ?_⟩
          exact failsOnlyAtEnd_clean _ _ _ (by simp [evIsFail])

theorem fadeChannel_props (env : SeqEnv) (ch : String) (s : SeqSt) :
    preemptEnds (fadeChannel env ch s) ∧ goodW (fadeChannel env ch s).1 ∧
      failsOnlyAtEnd (fadeChannel env ch s) := by
  unfold fadeChannel
  refine ⟨?_, ?_, ?_⟩
  · refine preemptEnds_andThen _ _ (fadeRamp_props env ch _ s).1 (fun s1 => ?_)
    refine preemptEnds_andThen _ _ (preemptEnds_pure _ _) (fun s2 => ?_)
    exact preemptEnds_andThen _ _ (fadeRamp_props env ch _ s2).1
      (fun s3 => preemptEnds_pure _ _)
  · refine goodW_andThen _ _ (fadeRamp_props env ch _ s).2.1 (fun s1 => ?_)
    refine goodW_andThen _ _ (goodW_single _ rfl) (fun s2 => ?_)
    exact goodW_andThen _ _ (fadeRamp_props env ch _ s2).2.1
      (fun s3 => goodW_single _ rfl)
  · refine failsOnlyAtEnd_andThen _ _ (fadeRamp_props env ch _ s).2.2 (fun s1 => ?_)
    refine failsOnlyAtEnd_andThen _ _ (failsOnlyAtEnd_clean _ _ _ (by decide)) (fun s2 => ?_)
    exact failsOnlyAtEnd_andThen _ _ (fadeRamp_props env ch _ s2).2.2
      (fun s3 => failsOnlyAtEnd_clean _ _ _ (by decide))

theorem fadeChannels_props (env : SeqEnv) (chs : List String) (s : SeqSt) :
    preemptEnds (fadeChannels env chs s) ∧ goodW (fadeChannels env chs s).1 ∧
      failsOnlyAtEnd (fadeChannels env chs s) := by
  induction chs generalizing s with
  | nil =>
      exact ⟨preemptEnds_pure _ _, goodW_nil, failsOnlyAtEnd_clean _ _ _ (by simp)⟩
  | cons ch rest ih =>
      unfold fadeChannels
      refine ⟨preemptEnds_andThen _ _ (fadeChannel_props env ch s).1
          (fun s1 => (ih s1).1),
        goodW_andThen _ _ (fadeChannel_props env ch s).2.1 (fun s1 => (ih s1).2.1),
        failsOnlyAtEnd_andThen _ _ (fadeChannel_props env ch s).2.2
          (fun s1 => (ih s1).2.2)⟩

theorem fadeLoop_props (env : SeqEnv) (chs : List String) (fuel : Nat) (s : SeqSt) :
    preemptEnds (fadeLoop env chs fuel s) ∧ goodW (fadeLoop env chs fuel s).1 ∧
      failsOnlyAtEnd (fadeLoop env chs fuel s) := by
  induction fuel generalizing s with
  | zero =>
      exact ⟨preemptEnds_pure _ _, goodW_nil, failsOnlyAtEnd_clean _ _ _ (by simp)⟩
  | succ f ih =>
      unfold fadeLoop
      refine ⟨preemptEnds_andThen _ _ (fadeChannels_props env chs s).1
          (fun s1 => (ih s1).1),
        goodW_andThen _ _ (fadeChannels_props env chs s).2.1 (fun s1 => (ih s1).2.1),
        failsOnlyAtEnd_andThen _ _ (fadeChannels_props env chs s).2.2
          (fun s1 => (ih s1).2.2)⟩

theorem fade_props (env : SeqEnv) (channel_name : Option String)
    (declared : List String) (fuel : Nat) :
    preemptEnds (_fade env channel_name declared fuel) ∧
      goodW (_fade env channel_name declared fuel).1 ∧
      failsOnlyAtEnd (_fade env channel_name declared fuel) := by
  unfold _fade
  cases ht : env.turnOffOk
  · simp only [Bool.false_eq_true, if_false]
    refine ⟨fun hp => by simp at hp, goodW_single _ rfl, failsOnlyAtEnd_abortLast _ _⟩
  · simp only [if_true]
    obtain ⟨h1, h2, h3⟩ := fadeLoop_props env
      (match channel_name with
       | some c => [c]
       | none => declared) fuel ⟨0, 0⟩
    exact ⟨preemptEnds_seqAppend _ _ h1,
      goodW_append (goodW_single _ rfl) h2,
      failsOnlyAtEnd_seqAppend _ _ (by decide) h3⟩

theorem goodW_triple (e : Ev) (ms : Nat) : goodW [e, Ev.chk, Ev.sleepMs ms] := by
  constructor
  · intro i e' hget hpe
    match i with
    | 0 => rfl
    | 1 =>
        simp only [List.get?] at hget
        cases hget
        cases hpe
    | 2 =>
        simp only [List.get?] at hget
        cases hget
        cases hpe
    | n + 3 => simp [List.get?] at hget
  · intro e' hl
    simp only [List.getLast?] at hl
    simp at hl
    rw [← hl]
    rfl

theorem orbitPanels_cons_preempt (env : SeqEnv) (x : String) (rest : List String)
    (s : SeqSt) (hw : env.setOutputOk s.callIdx = true)
    (hq : env.queueNonempty s.checkIdx = true) :
    orbitPanels env (x :: rest) s =
      ([Ev.write "R" 100, Ev.chk], some Halt.preempted,
        ⟨s.callIdx + 1, s.checkIdx + 1⟩) := by
  simp [orbitPanels, doSetOutput, doCheck, hw, hq]

theorem orbitPanels_cons_go (env : SeqEnv) (x : String) (rest : List String)
    (s : SeqSt) (hw : env.setOutputOk s.callIdx = true)
    (hq : env.queueNonempty s.checkIdx = false) :
    orbitPanels env (x :: rest) s =
      seqAppend [Ev.write "R" 100, Ev.chk, Ev.sleepMs 500]
        (orbitPanels env rest ⟨s.callIdx + 1, s.checkIdx + 1⟩) := by
  simp [orbitPanels, doSetOutput, doCheck, hw, hq]

theorem orbitPanels_cons_abort (env : SeqEnv) (x : String) (rest : List String)
    (s : SeqSt) (hw : env.setOutputOk s.callIdx = false) :
    orbitPanels env (x :: rest) s =
      ([Ev.writeFail "R" 100], some Halt.aborted, ⟨s.callIdx + 1, s.checkIdx⟩) := by
  simp [orbitPanels, doSetOutput, hw]

theorem orbitPanels_props (env : SeqEnv) (panels : List String) (s : SeqSt) :
    preemptEnds (orbitPanels env panels s) ∧ goodW (orbitPanels env panels s).1 ∧
      failsOnlyAtEnd (orbitPanels env panels s) := by
  induction panels generalizing s with
  | nil =>
      exact ⟨preemptEnds_pure _ _, goodW_nil, failsOnlyAtEnd_clean _ _ _ (by simp)⟩
  | cons x rest ih =>
      cases hw : env.setOutputOk s.callIdx
      · rw [orbitPanels_cons_abort env x rest s hw]
        refine ⟨?_, goodW_single _ rfl, failsOnlyAtEnd_abortLast _ _⟩
        intro hp
        simp at hp
      · cases hq : env.queueNonempty s.checkIdx
        · rw [orbitPanels_cons_go env x rest s hw hq]
          obtain ⟨h1, h2, h3⟩ := ih ⟨s.callIdx + 1, s.checkIdx + 1⟩
          exact ⟨preemptEnds_seqAppend _ _ h1,
            goodW_append (goodW_triple _ _) h2,
            failsOnlyAtEnd_seqAppend _ _ (by decide) h3⟩
        · rw [orbitPanels_cons_preempt env x rest s hw hq]
          exact ⟨fun _ => rfl, goodW_pair_chk _,
            failsOnlyAtEnd_clean _ _ _ (by decide)⟩

theorem orbitLoop_props (env : SeqEnv) (panels : List String) (fuel : Nat) (s : SeqSt) :
    preemptEnds (orbitLoop env panels fuel s) ∧ goodW (orbitLoop env panels fuel s).1 ∧
      failsOnlyAtEnd (orbitLoop env panels fuel s) := by
  induction fuel generalizing s with
  | zero =>
      exact ⟨preemptEnds_pure _ _, goodW_nil, failsOnlyAtEnd_clean _ _ _ (by simp)⟩
  | succ f ih =>
      cases hq : env.queueNonempty s.checkIdx
      · have heq : orbitLoop env panels (f + 1) s =
            seqAppend [Ev.chk]
              (andThen (orbitPanels env panels ⟨s.callIdx, s.checkIdx + 1⟩)
                (orbitLoop env panels f)) := by
          simp [orbitLoop, doCheck, hq]
        rw [heq]
        refine ⟨preemptEnds_seqAppend _ _ ?_, ?_, failsOnlyAtEnd_seqAppend _ _ (by decide) ?_⟩
        · exact preemptEnds_andThen _ _ (orbitPanels_props env panels _).1
            (fun s1 => (ih s1).1)
        · exact goodW_append (goodW_single _ rfl)
            (goodW_andThen _ _ (orbitPanels_props env panels _).2.1
              (fun s1 => (ih s1).2.1))
        · exact failsOnlyAtEnd_andThen _ _ (orbitPanels_props env panels _).2.2
            (fun s1 => (ih s1).2.2)
      · have heq : orbitLoop env panels (f + 1) s =
            ([Ev.chk], some Halt.preempted, ⟨s.callIdx, s.checkIdx + 1⟩) := by
          simp [orbitLoop, doCheck, hq]
        rw [heq]
        exact ⟨fun _ => rfl, goodW_single _ rfl, failsOnlyAtEnd_clean _ _ _ (by decide)⟩

theorem orbit_props (env : SeqEnv) (panels : List String) (fuel : Nat) :
    preemptEnds (_orbit env panels fuel) ∧ goodW (_orbit env panels fuel).1 ∧
      failsOnlyAtEnd (_orbit env panels fuel) := by
  unfold _orbit
  cases ht : env.turnOffOk
  · simp only [Bool.false_eq_true, if_false]
    refine ⟨fun hp => by simp at hp, goodW_single _ rfl, failsOnlyAtEnd_abortLast _ _⟩
  · simp only [if_true]
    obtain ⟨h1, h2, h3⟩ := orbitLoop_props env panels fuel ⟨0, 0⟩
    exact ⟨preemptEnds_seqAppend _ _ h1,
      goodW_append (goodW_single _ rfl) h2,
      failsOnlyAtEnd_seqAppend _ _ (by decide) h3⟩

theorem sunriseRampUp_props (env : SeqEnv) (ch : String) (delta : Int) (fuel : Nat) :
    ∀ (step : Int) (s : SeqSt),
      preemptEnds (sunriseRampUp env ch delta fuel step s) ∧
        onlyPreempt (sunriseRampUp env ch delta fuel step s) := by
  induction fuel with
  | zero => exact fun step s => ⟨preemptEnds_pure _ _, Or.inl rfl⟩
  | succ f ih =>
      intro step s
      by_cases hstep : step ≤ steps_max
      · by_cases hw : env.setOutputOk s.callIdx = true
        · by_cases hq : env.queueNonempty s.checkIdx = true
          · refine ⟨fun _ => ?_, Or.inr ?_⟩ <;>
              simp [sunriseRampUp, hstep, doSetOutput, doCheck, hw, hq]
          · have heq : sunriseRampUp env ch delta (f + 1) step s =
                seqAppend [Ev.write ch step, Ev.chk, Ev.sleepMs 1]
                  (sunriseRampUp env ch delta f (step + delta)
                    ⟨s.callIdx + 1, s.checkIdx + 1⟩) := by
              simp [sunriseRampUp, hstep, doSetOutput, doCheck, hw, hq]
            rw [heq]
            exact ⟨preemptEnds_seqAppend _ _ (ih _ _).1,
              onlyPreempt_seqAppend _ _ (ih _ _).2⟩
        · by_cases hq : env.queueNonempty s.checkIdx = true
          · refine ⟨fun _ => ?_, Or.inr ?_⟩ <;>
              simp [sunriseRampUp, hstep, doSetOutput, doCheck, hw, hq]
          · have heq : sunriseRampUp env ch delta (f + 1) step s =
                seqAppend [Ev.writeFail ch step, Ev.chk, Ev.sleepMs 1]
                  (sunriseRampUp env ch delta f (step + delta)
                    ⟨s.callIdx + 1, s.checkIdx + 1⟩) := by
              simp [sunriseRampUp, hstep, doSetOutput, doCheck, hw, hq]
            rw [heq]
            exact ⟨preemptEnds_seqAppend _ _ (ih _ _).1,
              onlyPreempt_seqAppend _ _ (ih _ _).2⟩
      · have heq : sunriseRampUp env ch delta (f + 1) step s = ([], none, s) := by
          simp [sunriseRampUp, hstep]
        rw [heq]
        exact ⟨preemptEnds_pure _ _, Or.inl rfl⟩

theorem sunriseRampDown_props (env : SeqEnv) (ch : String) (delta : Int) (fuel : Nat) :
    ∀ (step : Int) (s : SeqSt),
      preemptEnds (sunriseRampDown env ch delta fuel step s) ∧
        onlyPreempt (sunriseRampDown env ch delta fuel step s) := by
  induction fuel with
  | zero => exact fun step s => ⟨preemptEnds_pure _ _, Or.inl rfl⟩
  | succ f ih =>
      intro step s
      by_cases hstep : step ≥ steps_min
      · by_cases hw : env.setOutputOk s.callIdx = true
        · by_cases hq : env.queueNonempty s.checkIdx = true
          · refine ⟨fun _ => ?_, Or.inr ?_⟩ <;>
              simp [sunriseRampDown, hstep, doSetOutput, doCheck, hw, hq]
          · have heq : sunriseRampDown env ch delta (f + 1) step s =
                seqAppend [Ev.write ch step, Ev.chk, Ev.sleepMs 1]
                  (sunriseRampDown env ch delta f (step - delta)
                    ⟨s.callIdx + 1, s.checkIdx + 1⟩) := by
              simp [sunriseRampDown, hstep, doSetOutput, doCheck, hw, hq]
            rw [heq]
            exact ⟨preemptEnds_seqAppend _ _ (ih _ _).1,
              onlyPreempt_seqAppend _ _ (ih _ _).2⟩
        · by_cases hq : env.queueNonempty s.checkIdx = true
          · refine ⟨fun _ => ?_, Or.inr ?_⟩ <;>
              simp [sunriseRampDown, hstep, doSetOutput, doCheck, hw, hq]
          · have heq : sunriseRampDown env ch delta (f + 1) step s =
                seqAppend [Ev.writeFail ch step, Ev.chk, Ev.sleepMs 1]
                  (sunriseRampDown env ch delta f (step - delta)
                    ⟨s.callIdx + 1, s.checkIdx + 1⟩) := by
              simp [sunriseRampDown, hstep, doSetOutput, doCheck, hw, hq]
            rw [heq]
            exact ⟨preemptEnds_seqAppend _ _ (ih _ _).1,
              onlyPreempt_seqAppend _ _ (ih _ _).2⟩
      · have heq : sunriseRampDown env ch delta (f + 1) step s = ([], none, s) := by
          simp [sunriseRampDown, hstep]
        rw [heq]
        exact ⟨preemptEnds_pure _ _, Or.inl rfl⟩

theorem boundaryWrite_props (env : SeqEnv) (ch : String) (pct : Int) (s : SeqSt) :
    preemptEnds (boundaryWrite env ch pct s) ∧ onlyPreempt (boundaryWrite env ch pct s) := by
  constructor
  · intro hp
    simp [boundaryWrite] at hp
  · left
    rfl

theorem sunriseChannelsUp_props (env : SeqEnv) (delta : Int) (chs : List String) :
    ∀ s, preemptEnds (sunriseChannelsUp env delta chs s) ∧
      onlyPreempt (sunriseChannelsUp env delta chs s) := by
  induction chs with
  | nil => exact fun s => ⟨preemptEnds_pure _ _, Or.inl rfl⟩
  | cons ch rest ih =>
      intro s
      unfold sunriseChannelsUp
      constructor
      · refine preemptEnds_andThen _ _ (sunriseRampUp_props env ch delta _ _ _).1
          (fun s1 => ?_)
        exact preemptEnds_andThen _ _ (boundaryWrite_props env ch _ s1).1
          (fun s2 => (ih s2).1)
      · refine onlyPreempt_andThen _ _ (sunriseRampUp_props env ch delta _ _ _).2
          (fun s1 => ?_)
        exact onlyPreempt_andThen _ _ (boundaryWrite_props env ch _ s1).2
          (fun s2 => (ih s2).2)

theorem sunriseChannelsDown_props (env : SeqEnv) (delta : Int) (chs : List String) :
    ∀ s, preemptEnds (sunriseChannelsDown env delta chs s) ∧
      onlyPreempt (sunriseChannelsDown env delta chs s) := by
  induction chs with
  | nil => exact fun s => ⟨preemptEnds_pure _ _, Or.inl rfl⟩
  | cons ch rest ih =>
      intro s
      unfold sunriseChannelsDown
      constructor
      · refine preemptEnds_andThen _ _ (sunriseRampDown_props env ch delta _ _ _).1
          (fun s1 => ?_)
        exact preemptEnds_andThen _ _ (boundaryWrite_props env ch _ s1).1
          (fun s2 => (ih s2).1)
      · refine onlyPreempt_andThen _ _ (sunriseRampDown_props env ch delta _ _ _).2
          (fun s1 => ?_)
        exact onlyPreempt_andThen _ _ (boundaryWrite_props env ch _ s1).2
          (fun s2 => (ih s2).2)

theorem sunriseGroupsUp_props (env : SeqEnv) (groups : List (List String))
    (hg : ∀ g ∈ groups, (stepDelta? g).isSome = true) :
    ∀ s, preemptEnds (sunriseGroupsUp env groups s) ∧
      onlyPreempt (sunriseGroupsUp env groups s) := by
  induction groups with
  | nil => exact fun s => ⟨preemptEnds_pure _ _, Or.inl rfl⟩
  | cons g rest ih =>
      intro s
      obtain ⟨d, hd⟩ := Option.isSome_iff_exists.mp (hg g (by simp))
      have hrest : ∀ x ∈ rest, (stepDelta? x).isSome = true :=
        fun x hx => hg x (by simp [hx])
      unfold sunriseGroupsUp
      rw [hd]
      exact ⟨preemptEnds_andThen _ _ (sunriseChannelsUp_props env d g s).1
          (fun s1 => (ih hrest s1).1),
        onlyPreempt_andThen _ _ (sunriseChannelsUp_props env d g s).2
          (fun s1 => (ih hrest s1).2)⟩

theorem sunriseGroupsDown_props (env : SeqEnv) (groups : List (List String))
    (hg : ∀ g ∈ groups, (stepDelta? g).isSome = true) :
    ∀ s, preemptEnds (sunriseGroupsDown env groups s) ∧
      onlyPreempt (sunriseGroupsDown env groups s) := by
  induction groups with
  | nil => exact fun s => ⟨preemptEnds_pure _ _, Or.inl rfl⟩
  | cons g rest ih =>
      intro s
      obtain ⟨d, hd⟩ := Option.isSome_iff_exists.mp (hg g (by simp))
      have hrest : ∀ x ∈ rest, (stepDelta? x).isSome = true :=
        fun x hx => hg x (by simp [hx])
      unfold sunriseGroupsDown
      rw [hd]
      exact ⟨preemptEnds_andThen _ _ (sunriseChannelsDown_props env d g s).1
          (fun s1 => (ih hrest s1).1),
        onlyPreempt_andThen _ _ (sunriseChannelsDown_props env d g s).2
          (fun s1 => (ih hrest s1).2)⟩

theorem pauseCheck_props (env : SeqEnv) (s : SeqSt) :
    preemptEnds (pauseCheck env s) ∧ onlyPreempt (pauseCheck env s) := by
  by_cases hq : env.queueNonempty s.checkIdx = true
  · refine ⟨fun _ => ?_, Or.inr ?_⟩ <;> simp [pauseCheck, doCheck, hq]
  · constructor
    · intro hp
      simp [pauseCheck, doCheck, hq] at hp
    · left
      simp [pauseCheck, doCheck, hq]

theorem sunriseIteration_props (env : SeqEnv) (s : SeqSt) :
    preemptEnds (sunriseIteration env s) ∧ onlyPreempt (sunriseIteration env s) := by
  have hg1 : ∀ g ∈ sunrise_channel_lists, (stepDelta? g).isSome = true := by decide
  have hg2 : ∀ g ∈ sunrise_channel_lists.reverse, (stepDelta? g).isSome = true := by decide
  unfold sunriseIteration
  constructor
  · refine preemptEnds_andThen _ _ (sunriseGroupsUp_props env _ hg1 s).1 (fun s1 => ?_)
    refine preemptEnds_andThen _ _ (pauseCheck_props env s1).1 (fun s2 => ?_)
    refine preemptEnds_andThen _ _ (sunriseGroupsDown_props env _ hg2 s2).1 (fun s3 => ?_)
    exact (pauseCheck_props env s3).1
  · refine onlyPreempt_andThen _ _ (sunriseGroupsUp_props env _ hg1 s).2 (fun s1 => ?_)
    refine onlyPreempt_andThen _ _ (pauseCheck_props env s1).2 (fun s2 => ?_)
    refine onlyPreempt_andThen _ _ (sunriseGroupsDown_props env _ hg2 s2).2 (fun s3 => ?_)
    exact (pauseCheck_props env s3).2

theorem sunriseLoop_props (env : SeqEnv) (fuel : Nat) :
    ∀ s, preemptEnds (sunriseLoop env fuel s) ∧ onlyPreempt (sunriseLoop env fuel s) := by
  induction fuel with
  | zero => exact fun s => ⟨preemptEnds_pure _ _, Or.inl rfl⟩
  | succ f ih =>
      intro s
      unfold sunriseLoop
      exact ⟨preemptEnds_andThen _ _ (sunriseIteration_props env s).1
          (fun s1 => (ih s1).1),
        onlyPreempt_andThen _ _ (sunriseIteration_props env s).2
          (fun s1 => (ih s1).2)⟩

theorem sunrise_props (env : SeqEnv) (fuel : Nat) :
    preemptEnds (_sunrise env fuel) ∧
      (env.turnOffOk = true → onlyPreempt (_sunrise env fuel)) := by
  unfold _sunrise
  cases ht : env.turnOffOk
  · simp only [Bool.false_eq_true, if_false]
    refine ⟨fun hp => by simp at hp, fun hc => by cases hc⟩
  · simp only [if_true]
    exact ⟨preemptEnds_seqAppend _ _ (sunriseLoop_props env fuel ⟨0, 0⟩).1,
      fun _ => onlyPreempt_seqAppend _ _ (sunriseLoop_props env fuel ⟨0, 0⟩).2⟩

/-!
Claim theorems.
-/

/-- C3: for every command type (TurnOn, TurnOff, SetChannel, Fade, Sunrise,
Orbit), if Mode is not MANUAL at submission time the pre-processor returns
the rejection ("Must be in manual mode", 400) and the state (in particular
the command queue) is unchanged. -/
theorem C3_not_manual_rejected (cfg : LedConfig) (st : LedState) (req : RawRequest)
    (hm : st.mode ≠ Mode.MANUAL)
    (ht : req.type = TURN_ON_EVENT ∨ req.type = TURN_OFF_EVENT ∨
          req.type = SET_CHANNEL_EVENT ∨ req.type = FADE_EVENT ∨
          req.type = SUNRISE_EVENT ∨ req.type = ORBIT_EVENT) :
    create_peripheral_specific_event cfg st req = (("Must be in manual mode", 400), st) := by
  rcases ht with h | h | h | h | h | h <;>
    simp [create_peripheral_specific_event, h, TURN_ON_EVENT, TURN_OFF_EVENT,
      SET_CHANNEL_EVENT, FADE_EVENT, SUNRISE_EVENT, ORBIT_EVENT,
      turn_on, turn_off, set_channel, fade, sunrise, orbit, hm]

/-- Witness for C3 at a concrete non-MANUAL state and the Sunrise type. -/
theorem C3_witness :
    create_peripheral_specific_event demoCfg stError ⟨SUNRISE_EVENT, none⟩ =
      (("Must be in manual mode", 400), stError) :=
  C3_not_manual_rejected demoCfg stError ⟨SUNRISE_EVENT, none⟩ (by decide)
    (Or.inr (Or.inr (Or.inr (Or.inr (Or.inl rfl)))))

/-- C4: in MANUAL mode, Sunrise and Orbit return a 500 rejection with the
state unchanged exactly when some required channel name (R, FR, WW, CW, G, B)
is missing from the configured channel set; when all six are present they
enqueue the command and return a 200 acceptance with a descriptive message. -/
theorem C4_sunrise_orbit_required (cfg : LedConfig) (st : LedState)
    (hm : st.mode = Mode.MANUAL) :
    ((((sunrise cfg st).1.2 = 500 ∧ (sunrise cfg st).2 = st) ↔
        ∃ c ∈ required_channel_names, c ∉ cfg.channel_names) ∧
     (((orbit cfg st).1.2 = 500 ∧ (orbit cfg st).2 = st) ↔
        ∃ c ∈ required_channel_names, c ∉ cfg.channel_names)) ∧
    ((∀ c ∈ required_channel_names, c ∈ cfg.channel_names) →
      sunrise cfg st = (("Starting sunrise demo", 200),
          { st with queue := st.queue ++ [Request.sunrise] }) ∧
      orbit cfg st = (("Starting orbit demo", 200),
          { st with queue := st.queue ++ [Request.orbit] })) := by
  cases hf : firstMissing cfg.channel_names with
  | some c =>
      have hc := firstMissing_some_spec _ _ hf
      have hmiss : ∃ c ∈ required_channel_names, c ∉ cfg.channel_names :=
        ⟨c, hc.1, hc.2⟩
      refine ⟨⟨iff_of_true ?_ hmiss, iff_of_true ?_ hmiss⟩, ?_⟩
      · simp [sunrise, hm, hf]
      · simp [orbit, hm, hf]
      · intro hall
        exact absurd hf (by simp [(firstMissing_none_iff cfg.channel_names).mpr hall])
  | none =>
      have hall := (firstMissing_none_iff cfg.channel_names).mp hf
      have hnomiss : ¬ ∃ c ∈ required_channel_names, c ∉ cfg.channel_names := by
        rintro ⟨c, hc, hnc⟩
        exact hnc (hall c hc)
      refine ⟨⟨iff_of_false ?_ hnomiss, iff_of_false ?_ hnomiss⟩, fun _ => ?_⟩
      · simp [sunrise, hm, hf]
      · simp [orbit, hm, hf]
      · constructor <;> simp [sunrise, orbit, hm, hf]

/-- Witness for C4: with all six channels declared, Sunrise is accepted; with
FR missing it is rejected with 500 and enqueues nothing. -/
theorem C4_witness :
    sunrise demoCfg stManual = (("Starting sunrise demo", 200),
      { stManual with queue := stManual.queue ++ [Request.sunrise] }) ∧
    ((sunrise cfgNoFR stManual).1.2 = 500 ∧ (sunrise cfgNoFR stManual).2 = stManual) :=
  ⟨((C4_sunrise_orbit_required demoCfg stManual rfl).2 (by decide)).1,
   ((C4_sunrise_orbit_required cfgNoFR stManual rfl).1.1).mpr ⟨"FR", by decide, by decide⟩⟩

/-- C6: if the initial turn-off-all-outputs call of a Fade, Sunrise, or Orbit
sequence fails, the sequence logs and aborts before any output step (the
trace holds only the failed turn-off; no write occurs), and the manager state
is untouched: the sequence functions assign no mode at all. -/
theorem C6_initial_turnoff_failure (env : SeqEnv) (channel_name : Option String)
    (declared panels : List String) (fuel : Nat) (h : env.turnOffOk = false) :
    _fade env channel_name declared fuel = ([Ev.turnOffFail], some Halt.aborted, ⟨0, 0⟩) ∧
    _sunrise env fuel = ([Ev.turnOffFail], some Halt.aborted, ⟨0, 0⟩) ∧
    _orbit env panels fuel = ([Ev.turnOffFail], some Halt.aborted, ⟨0, 0⟩) := by
  simp [_fade, _sunrise, _orbit, h]

/-- Witness for C6 with a turn-off-raising driver. -/
theorem C6_witness :
    _fade envTurnOffFails none ["R"] 1 = ([Ev.turnOffFail], some Halt.aborted, ⟨0, 0⟩) ∧
    _sunrise envTurnOffFails 1 = ([Ev.turnOffFail], some Halt.aborted, ⟨0, 0⟩) := by
  have h := C6_initial_turnoff_failure envTurnOffFails none ["R"] ["panel_1"] 1 rfl
  exact ⟨h.1, h.2.1⟩

/-- C7: a DriverFailure inside a dispatched handler (_turn_on, _turn_off or
_set_channel) sets Mode to ERROR and leaves the channel setpoints unmodified
for the failed step. -/
theorem C7_handler_driver_error (drv : LedDriver) (st : LedState) (c : String)
    (q : PyFloat)
    (h1 : drv.turn_on = none) (h2 : drv.turn_off = none)
    (h3 : drv.set_output c q = false) :
    ((_turn_on drv st).mode = Mode.ERROR ∧
      (_turn_on drv st).channel_setpoints = st.channel_setpoints) ∧
    ((_turn_off drv st).mode = Mode.ERROR ∧
      (_turn_off drv st).channel_setpoints = st.channel_setpoints) ∧
    ((_set_channel drv st c q).mode = Mode.ERROR ∧
      (_set_channel drv st c q).channel_setpoints = st.channel_setpoints) := by
  simp [_turn_on, _turn_off, _set_channel, h1, h2, h3]

/-- Witness for C7 with an always-raising driver. -/
theorem C7_witness :
    ((_turn_on drvBadLed stManual).mode = Mode.ERROR ∧
      (_turn_on drvBadLed stManual).channel_setpoints = stManual.channel_setpoints) ∧
    ((_turn_off drvBadLed stManual).mode = Mode.ERROR ∧
      (_turn_off drvBadLed stManual).channel_setpoints = stManual.channel_setpoints) ∧
    ((_set_channel drvBadLed stManual "R" (PyFloat.finite 50)).mode = Mode.ERROR ∧
      (_set_channel drvBadLed stManual "R" (PyFloat.finite 50)).channel_setpoints =
        stManual.channel_setpoints) :=
  C7_handler_driver_error drvBadLed stManual "R" (PyFloat.finite 50) rfl rfl rfl

/-- C2 fails as stated: a raw payload that cannot be parsed into
(channel, percent) does not always get a 400 — a payload with no second
comma-separated field ("R" in MANUAL mode with R declared) hits the bare
except via IndexError and returns status 500 (nothing is enqueued). -/
theorem C2_counterexample :
    set_channel demoCfg stManual (some "R") =
      (("Unable to set channel, unhandled exception", 500), stManual) ∧
    (set_channel demoCfg stManual (some "R")).1.2 ≠ 400 := by
  constructor
  · rfl
  · decide

/-- C2 amended: in MANUAL mode, a payload splitting to a declared channel c
and a second field whose float() value p is neither below 0 nor above 100
under IEEE comparison (for finite p this is 0 ≤ p ≤ 100; nan also qualifies)
enqueues SetChannel(c, p) and returns ("Setting c to p%", 200), and after
dispatch with a succeeding driver the setpoint of c is p. An undeclared
channel, a percent below 0 or above 100, a missing value key, or a percent
field float() rejects each yield 400 with nothing enqueued; a payload with no
second comma-separated field yields 500 with nothing enqueued. -/
theorem C2_set_channel_amended (cfg : LedConfig) (st st2 : LedState) (drv : LedDriver)
    (v c p : String) (rest : List String) (q : PyFloat)
    (hm : st.mode = Mode.MANUAL) :
    (pySplitComma v = c :: p :: rest → pyFloat? p = some q → c ∈ cfg.channel_names →
      pyLt q 0 = false → pyGt q 100 = false →
      set_channel cfg st (some v) =
        (("Setting " ++ c ++ " to " ++ formatF0 q ++ "%", 200),
         { st with queue := st.queue ++ [Request.setChannel c q] }) ∧
      (drv.set_output c q = true →
        (_set_channel drv st2 c q).channel_setpoints.lookup c = some q)) ∧
    (pySplitComma v = c :: p :: rest → pyFloat? p = some q → c ∉ cfg.channel_names →
      (set_channel cfg st (some v)).1.2 = 400 ∧ (set_channel cfg st (some v)).2 = st) ∧
    (pySplitComma v = c :: p :: rest → pyFloat? p = some q →
      (pyLt q 0 = true ∨ pyGt q 100 = true) →
      (set_channel cfg st (some v)).1.2 = 400 ∧ (set_channel cfg st (some v)).2 = st) ∧
    (pySplitComma v = c :: p :: rest → pyFloat? p = none →
      (set_channel cfg st (some v)).1.2 = 400 ∧ (set_channel cfg st (some v)).2 = st) ∧
    (set_channel cfg st none =
      (("Unable to set channel, invalid request parameter: 'value'", 400), st)) ∧
    (pySplitComma v = [c] →
      (set_channel cfg st (some v)).1.2 = 500 ∧ (set_channel cfg st (some v)).2 = st) := by
  refine ⟨?_, ?_, ?_, ?_, ?_, ?_⟩
  · intro hsplit hq hc h0 h100
    constructor
    · simp [set_channel, hm, hsplit, hq, hc, h0, h100]
    · intro hd
      simp [_set_channel, hd, lookup_setAssoc]
  · intro hsplit hq hc
    refine ⟨?_, ?_⟩ <;> simp [set_channel, hm, hsplit, hq, hc]
  · intro hsplit hq hout
    by_cases hc : c ∈ cfg.channel_names <;>
      rcases hout with h | h <;>
        refine ⟨?_, ?_⟩ <;> simp [set_channel, hm, hsplit, hq, hc, h]
  · intro hsplit hqn
    refine ⟨?_, ?_⟩ <;> simp [set_channel, hm, hsplit, hqn]
  · simp [set_channel, hm]
  · intro hsplit1
    refine ⟨?_, ?_⟩ <;> simp [set_channel, hm, hsplit1]

set_option maxRecDepth 40000 in
/-- Witness for C2 amended: payloads "R,50" and "R,1e1" in MANUAL mode are
accepted (the latter through the exponent form of float()) and the dispatched
handler records setpoint 50 for R. -/
theorem C2_witness :
    set_channel demoCfg stManual (some "R,50") =
      (("Setting " ++ "R" ++ " to " ++ formatF0 (PyFloat.finite 50) ++ "%", 200),
       { stManual with
          queue := stManual.queue ++ [Request.setChannel "R" (PyFloat.finite 50)] }) ∧
    (_set_channel drvOkLed stManual "R" (PyFloat.finite 50)).channel_setpoints.lookup "R" =
      some (PyFloat.finite 50) ∧
    set_channel demoCfg stManual (some "R,1e1") =
      (("Setting " ++ "R" ++ " to " ++ formatF0 (PyFloat.finite 10) ++ "%", 200),
       { stManual with
          queue := stManual.queue ++ [Request.setChannel "R" (PyFloat.finite 10)] }) := by
  have h1 := (C2_set_channel_amended demoCfg stManual stManual drvOkLed
      "R,50" "R" "50" [] (PyFloat.finite 50) rfl).1 (by decide) (by decide)
      (by decide) (by decide) (by decide)
  have h2 := (C2_set_channel_amended demoCfg stManual stManual drvOkLed
      "R,1e1" "R" "1e1" [] (PyFloat.finite 10) rfl).1 (by decide) (by decide)
      (by decide) (by decide) (by decide)
  exact ⟨h1.1, h1.2 rfl, h2.1⟩

theorem updateSensors_ok (drv : ADTDriver) (l : List SensorSpec) (st : ADTState)
    (h : ∀ s ∈ l, (drv.read_temperature s.sensor_id).isSome = true) :
    updateSensors drv l st =
      Except.ok { st with publishes := st.publishes ++ sensorPubs drv l } := by
  induction l generalizing st with
  | nil => simp [updateSensors, sensorPubs]
  | cons s rest ih =>
      obtain ⟨t, ht⟩ := Option.isSome_iff_exists.mp (h s (by simp))
      simp only [updateSensors, ht]
      rw [ih _ (fun x hx => h x (by simp [hx]))]
      simp [set_sensor, sensorPubs, ht, List.append_assoc]

theorem updateActuators_ok (drv : ADTDriver) (l : List ActuatorSpec) (st : ADTState)
    (h0 : ℚ)
    (h : ∀ a ∈ l, (drv.read_current_duty_cycle a.fan_id).isSome = true ∧
          (drv.read_fan_speed a.fan_id).isSome = true) :
    updateActuators drv l st h0 =
      Except.ok ({ st with publishes := st.publishes ++ actuatorPubs drv l },
                 if l.any (fanFailB drv) then 60 else h0) := by
  induction l generalizing st h0 with
  | nil => simp [updateActuators, actuatorPubs]
  | cons a rest ih =>
      obtain ⟨d, hd⟩ := Option.isSome_iff_exists.mp (h a (by simp)).1
      obtain ⟨sp, hsp⟩ := Option.isSome_iff_exists.mp (h a (by simp)).2
      have hguard : fanFailB drv a =
          (a.tachometer_enabled && decide (0 < d) && decide (sp = 0)) := by
        simp [fanFailB, hd, hsp]
      simp only [updateActuators, hd, hsp]
      rw [ih _ _ (fun x hx => h x (by simp [hx]))]
      cases hg : a.tachometer_enabled && decide (0 < d) && decide (sp = 0) <;>
        cases hr : rest.any (fanFailB drv) <;>
          simp [set_actuator, actuatorPubs, hd, hsp, hguard, hg, hr, List.append_assoc]

theorem updateSensors_fail (drv : ADTDriver) (pre post : List SensorSpec)
    (s : SensorSpec) (st : ADTState)
    (hpre : ∀ x ∈ pre, (drv.read_temperature x.sensor_id).isSome = true)
    (hfail : drv.read_temperature s.sensor_id = none) :
    updateSensors drv (pre ++ s :: post) st =
      Except.error { st with publishes := st.publishes ++ sensorPubs drv pre } := by
  induction pre generalizing st with
  | nil => simp [updateSensors, hfail, sensorPubs]
  | cons x rest ih =>
      obtain ⟨t, ht⟩ := Option.isSome_iff_exists.mp (hpre x (by simp))
      simp only [List.cons_append, updateSensors, ht, List.append_eq]
      rw [ih _ (fun y hy => hpre y (by simp [hy]))]
      simp [set_sensor, sensorPubs, ht, List.append_assoc]

theorem updateActuators_fail (drv : ADTDriver) (pre post : List ActuatorSpec)
    (a : ActuatorSpec) (st : ADTState) (h0 : ℚ)
    (hpre : ∀ x ∈ pre, (drv.read_current_duty_cycle x.fan_id).isSome = true ∧
            (drv.read_fan_speed x.fan_id).isSome = true)
    (hfail : drv.read_current_duty_cycle a.fan_id = none ∨
             drv.read_fan_speed a.fan_id = none) :
    updateActuators drv (pre ++ a :: post) st h0 =
      Except.error { st with publishes := st.publishes ++ actuatorPubs drv pre } := by
  induction pre generalizing st h0 with
  | nil =>
      rcases hfail with hf | hf
      · simp [updateActuators, hf, actuatorPubs]
      · cases hd : drv.read_current_duty_cycle a.fan_id <;>
          simp [updateActuators, hd, hf, actuatorPubs]
  | cons x rest ih =>
      obtain ⟨d, hd⟩ := Option.isSome_iff_exists.mp (hpre x (by simp)).1
      obtain ⟨sp, hsp⟩ := Option.isSome_iff_exists.mp (hpre x (by simp)).2
      simp only [List.cons_append, updateActuators, hd, hsp, List.append_eq]
      rw [ih _ _ (fun y hy => hpre y (by simp [hy]))]
      simp [set_actuator, actuatorPubs, hd, hsp, List.append_assoc]

/-- C8: on a monitor pass where every driver read succeeds, every declared
sensor temperature and every declared actuator duty cycle and fan speed are
published (to both scopes, in order), the mode is unchanged, and the health
is overwritten wholesale to 60 if at least one tachometer-enabled actuator
reads a positive duty cycle with zero fan speed, otherwise to 100. -/
theorem C8_monitor_pass_success (drv : ADTDriver) (cfg : ADTConfig) (st : ADTState)
    (hsim : cfg.simulate = false)
    (hs : ∀ s ∈ cfg.sensors, (drv.read_temperature s.sensor_id).isSome = true)
    (ha : ∀ a ∈ cfg.actuators, (drv.read_current_duty_cycle a.fan_id).isSome = true ∧
          (drv.read_fan_speed a.fan_id).isSome = true) :
    update_peripheral drv cfg st =
      { st with
          publishes := st.publishes ++ sensorPubs drv cfg.sensors ++
            actuatorPubs drv cfg.actuators
          health := if cfg.actuators.any (fanFailB drv) then 60 else 100 } := by
  have h1 := updateSensors_ok drv cfg.sensors st hs
  have h2 := updateActuators_ok drv cfg.actuators
    { st with publishes := st.publishes ++ sensorPubs drv cfg.sensors } 100 ha
  simp only [update_peripheral, hsim, Bool.false_eq_true, if_false, h1, h2]

/-- Witness for C8: a stuck fan (duty 40, speed 0) gives pass health 60, a
spinning fan (duty 40, speed 1200) gives 100; all values are published. -/
theorem C8_witness :
    update_peripheral drvStuckFan demoADTCfg demoADTState =
      { demoADTState with
          publishes := demoADTState.publishes ++ sensorPubs drvStuckFan demoADTCfg.sensors ++
            actuatorPubs drvStuckFan demoADTCfg.actuators
          health := if demoADTCfg.actuators.any (fanFailB drvStuckFan) then 60 else 100 } ∧
    (update_peripheral drvStuckFan demoADTCfg demoADTState).health = 60 ∧
    (update_peripheral drvSpinningFan demoADTCfg demoADTState).health = 100 := by
  refine ⟨C8_monitor_pass_success _ _ _ rfl (by decide) (by decide), ?_, ?_⟩
  · rw [C8_monitor_pass_success drvStuckFan demoADTCfg demoADTState rfl
      (by decide) (by decide)]
    decide
  · rw [C8_monitor_pass_success drvSpinningFan demoADTCfg demoADTState rfl
      (by decide) (by decide)]
    decide

/-- C9: a DriverFailure during setup sets Mode ERROR and health 0 regardless
of how much of the body already ran; during a monitor pass, a sensor read
failure aborts the whole pass (only the earlier sensors of the pass were
published, no actuator is), and an actuator read failure likewise, in both
cases with Mode ERROR and health 0. -/
theorem C9_driver_failure_sets_error (drv : ADTDriver) (cfg : ADTConfig) (st : ADTState)
    (pre post : List SensorSpec) (s : SensorSpec)
    (preA postA : List ActuatorSpec) (a : ActuatorSpec) :
    (cfg.simulate = false → setupBody drv cfg.actuators st.health = Except.error () →
      setup_peripheral drv cfg st = { st with mode := Mode.ERROR, health := 0 }) ∧
    (cfg.simulate = false → cfg.sensors = pre ++ s :: post →
      (∀ x ∈ pre, (drv.read_temperature x.sensor_id).isSome = true) →
      drv.read_temperature s.sensor_id = none →
      update_peripheral drv cfg st =
        { st with
            mode := Mode.ERROR
            health := 0
            publishes := st.publishes ++ sensorPubs drv pre }) ∧
    (cfg.simulate = false →
      (∀ x ∈ cfg.sensors, (drv.read_temperature x.sensor_id).isSome = true) →
      cfg.actuators = preA ++ a :: postA →
      (∀ x ∈ preA, (drv.read_current_duty_cycle x.fan_id).isSome = true ∧
        (drv.read_fan_speed x.fan_id).isSome = true) →
      (drv.read_current_duty_cycle a.fan_id = none ∨
        drv.read_fan_speed a.fan_id = none) →
      update_peripheral drv cfg st =
        { st with
            mode := Mode.ERROR
            health := 0
            publishes := st.publishes ++ sensorPubs drv cfg.sensors ++
              actuatorPubs drv preA }) := by
  refine ⟨?_, ?_, ?_⟩
  · intro hsim hbody
    simp [setup_peripheral, hsim, hbody]
  · intro hsim hsplit hpre hfail
    have h1 := updateSensors_fail drv pre post s st hpre hfail
    simp only [update_peripheral, hsim, Bool.false_eq_true, if_false, hsplit, h1]
  · intro hsim hs hsplit hpre hfail
    have h1 := updateSensors_ok drv cfg.sensors st hs
    have h2 := updateActuators_fail drv preA postA a
      { st with publishes := st.publishes ++ sensorPubs drv cfg.sensors } 100 hpre hfail
    simp only [update_peripheral, hsim, Bool.false_eq_true, if_false, h1, hsplit, h2]

/-- Witness for C9: a failing enable_monitoring during setup and a failing
temperature read during an update pass both force Mode ERROR and health 0. -/
theorem C9_witness :
    setup_peripheral drvMonitorFails demoADTCfg demoADTState =
      { demoADTState with mode := Mode.ERROR, health := 0 } ∧
    update_peripheral drvTempFails demoADTCfg demoADTState =
      { demoADTState with
          mode := Mode.ERROR
          health := 0
          publishes := demoADTState.publishes ++ sensorPubs drvTempFails [] } := by
  have h1 := (C9_driver_failure_sets_error drvMonitorFails demoADTCfg demoADTState
    [] [] demoSensor [] [] demoActuator).1 rfl rfl
  have h2 := (C9_driver_failure_sets_error drvTempFails demoADTCfg demoADTState
    [] [] demoSensor [] [] demoActuator).2.1 rfl rfl (by simp) rfl
  exact ⟨h1, h2⟩

/-- C1 fails as stated: in the fade trace over the single declared channel R
(healthy driver, empty queue, one loop pass), the hold at index 39 is
followed by an output write at index 40, not by a queue checkpoint — the
engine does not check the command queue after every hold. -/
theorem C1_counterexample :
    ¬ (checkpointAfter evIsWrite fadeDemoTrace ∧
        checkpointAfter evIsHold fadeDemoTrace) := by
  intro h
  have h39 := h.2 39 (Ev.sleepMs 1) (by decide) (by decide)
  exact absurd h39 (by decide)

/-- C1 amended: in Fade and Orbit every successful output write is
immediately followed by a queue checkpoint (in Sunrise the ramp-boundary
writes are not, and holds are not in general); whenever the queue is
non-empty at a checkpoint, the sequence returns at once — the checkpoint is
the last event of a preempted run, nothing is restored after it; and with the
queue non-empty throughout, each sequence exits preempted at its very first
checkpoint. -/
theorem C1_preemption_amended :
    (∀ (env : SeqEnv) (chOpt : Option String) (declared : List String) (fuel : Nat),
        checkpointAfter evIsWrite (_fade env chOpt declared fuel).1) ∧
    (∀ (env : SeqEnv) (panels : List String) (fuel : Nat),
        checkpointAfter evIsWrite (_orbit env panels fuel).1) ∧
    (∀ (env : SeqEnv) (chOpt : Option String) (declared : List String) (fuel : Nat),
        preemptEnds (_fade env chOpt declared fuel)) ∧
    (∀ (env : SeqEnv) (panels : List String) (fuel : Nat),
        preemptEnds (_orbit env panels fuel)) ∧
    (∀ (env : SeqEnv) (fuel : Nat), preemptEnds (_sunrise env fuel)) ∧
    (∀ (env : SeqEnv) (ch : String) (rest : List String) (fuel : Nat),
        env.turnOffOk = true → (∀ k, env.setOutputOk k = true) →
        (∀ k, env.queueNonempty k = true) →
        _fade env none (ch :: rest) (fuel + 1) =
          ([Ev.turnOffAll, Ev.write ch 0, Ev.chk], some Halt.preempted, ⟨1, 1⟩)) ∧
    (∀ (env : SeqEnv) (fuel : Nat),
        env.turnOffOk = true → (∀ k, env.setOutputOk k = true) →
        (∀ k, env.queueNonempty k = true) →
        _sunrise env (fuel + 1) =
          ([Ev.turnOffAll, Ev.write "FR" 0, Ev.chk], some Halt.preempted, ⟨1, 1⟩)) ∧
    (∀ (env : SeqEnv) (panels : List String) (fuel : Nat),
        env.turnOffOk = true → (∀ k, env.queueNonempty k = true) →
        _orbit env panels (fuel + 1) =
          ([Ev.turnOffAll, Ev.chk], some Halt.preempted, ⟨0, 1⟩)) := by
  refine ⟨fun env c d f => (fade_props env c d f).2.1.1,
    fun env p f => (orbit_props env p f).2.1.1,
    fun env c d f => (fade_props env c d f).1,
    fun env p f => (orbit_props env p f).1,
    fun env f => (sunrise_props env f).1, ?_, ?_, ?_⟩
  · intro env ch rest fuel ht hw hq
    simp [_fade, ht, fadeLoop, fadeChannels, fadeChannel, fadeRamp, fade_steps_up,
      doSetOutput, doCheck, hw, hq, andThen, seqAppend]
  · intro env fuel ht hw hq
    have h1 : sunriseRampUp env "FR" steps_delta_slow rampFuel steps_min ⟨0, 0⟩ =
        ([Ev.write "FR" steps_min, Ev.chk], some Halt.preempted, ⟨1, 1⟩) := by
      simp [show rampFuel = 201 + 1 from rfl, sunriseRampUp,
        show (steps_min : Int) ≤ steps_max from by decide,
        doSetOutput, doCheck, hw, hq]
    have h2 : sunriseGroupsUp env sunrise_channel_lists ⟨0, 0⟩ =
        ([Ev.write "FR" steps_min, Ev.chk], some Halt.preempted, ⟨1, 1⟩) := by
      show andThen (sunriseChannelsUp env steps_delta_slow ["FR"] ⟨0, 0⟩) _ = _
      unfold sunriseChannelsUp
      rw [h1]
      rfl
    have h3 : sunriseLoop env (fuel + 1) ⟨0, 0⟩ =
        ([Ev.write "FR" steps_min, Ev.chk], some Halt.preempted, ⟨1, 1⟩) := by
      unfold sunriseLoop sunriseIteration
      rw [h2]
      rfl
    simp [_sunrise, ht, h3, seqAppend]
    rfl
  · intro env panels fuel ht hq
    simp [_orbit, ht, orbitLoop, doCheck, hq, seqAppend]

/-- Witness for C1 amended: with the queue permanently non-empty, fade over
channel R exits preempted right after its first write and orbit exits at the
checkpoint before any write. -/
theorem C1_witness :
    _fade envBusyQ none ["R"] 1 =
      ([Ev.turnOffAll, Ev.write "R" 0, Ev.chk], some Halt.preempted, ⟨1, 1⟩) ∧
    _orbit envBusyQ ["panel_1"] 1 =
      ([Ev.turnOffAll, Ev.chk], some Halt.preempted, ⟨0, 1⟩) := by
  have h := C1_preemption_amended
  exact ⟨h.2.2.2.2.2.1 envBusyQ "R" [] 0 rfl (fun _ => rfl) (fun _ => rfl),
    h.2.2.2.2.2.2.2 envBusyQ ["panel_1"] 0 rfl (fun _ => rfl)⟩

/-- C5 fails as stated: in a sunrise run whose first set_output raises
(healthy turn-off), the failure event at index 1 is not the last action — the
sequence goes on to write again before being preempted — so a driver failure
during a step does not abort _sunrise. -/
theorem C5_counterexample :
    ¬ failsOnlyAtEnd (_sunrise envFailThenBusy 1) := by
  intro h
  have h1 := h 1 (Ev.writeFail "FR" 0) (by decide) (by decide)
  exact absurd h1.2 (by decide)

/-- C5 amended: a driver failure during a step write of Fade or Orbit is
logged and immediately aborts the sequence (the failure event is the last
event of the trace and the run returns aborted); in Sunrise a step-write
failure is logged and the sequence continues — after a successful initial
turn-off, _sunrise never returns aborted. No case assigns Mode: the sequence
functions leave the manager state alone. -/
theorem C5_step_failure_amended :
    (∀ (env : SeqEnv) (chOpt : Option String) (declared : List String) (fuel : Nat),
        failsOnlyAtEnd (_fade env chOpt declared fuel)) ∧
    (∀ (env : SeqEnv) (panels : List String) (fuel : Nat),
        failsOnlyAtEnd (_orbit env panels fuel)) ∧
    (∀ (env : SeqEnv) (fuel : Nat), env.turnOffOk = true →
        (_sunrise env fuel).2.1 ≠ some Halt.aborted) := by
  refine ⟨fun env c d f => (fade_props env c d f).2.2,
    fun env p f => (orbit_props env p f).2.2,
    fun env f ht => ?_⟩
  rcases (sunrise_props env f).2 ht with h | h <;> simp [h]

/-- Witness for C5 amended: a fade whose first write fails ends right at the
failure event with the aborted outcome. -/
theorem C5_witness :
    1 + 1 = (_fade envFirstWriteFails none ["R"] 1).1.length ∧
    (_fade envFirstWriteFails none ["R"] 1).2.1 = some Halt.aborted :=
  C5_step_failure_amended.1 envFirstWriteFails none ["R"] 1 1 (Ev.writeFail "R" 0)
    (by decide) (by decide)

/-- C10: every channel group in the fixed sunrise table has length one, the
selected step delta is always the slow delta 1, and no run of _sunrise ever
reaches the branch that references the undefined name steps_delta_dast
(modelled as the nameError outcome). -/
theorem C10_no_name_error :
    (∀ g ∈ sunrise_channel_lists, g.length = 1 ∧ stepDelta? g = some 1) ∧
    (∀ (env : SeqEnv) (fuel : Nat), (_sunrise env fuel).2.1 ≠ some Halt.nameError) := by
  refine ⟨by decide, fun env fuel => ?_⟩
  cases ht : env.turnOffOk
  · have h : _sunrise env fuel = ([Ev.turnOffFail], some Halt.aborted, ⟨0, 0⟩) := by
      simp [_sunrise, ht]
    simp [h]
  · rcases (sunrise_props env fuel).2 ht with h | h <;> simp [h]

/-- Witness for C10 at the first group and a concrete healthy run. -/
theorem C10_witness :
    (["FR"].length = 1 ∧ stepDelta? ["FR"] = some 1) ∧
    (_sunrise envEmptyQ 1).2.1 ≠ some Halt.nameError :=
  ⟨C10_no_name_error.1 ["FR"] (by decide), C10_no_name_error.2 envEmptyQ 1⟩

end OpenAg
